import Mathlib

/-!
Verification development for the toy-socks5 repository.

The repository contains two near-duplicate Go implementations of a SOCKS5
proxy: `server.go` (embedded below in namespace `SG`) and a refined variant
captured as `unnamed/part_001` (namespace `P1`).  Both are shallowly embedded
as pure state-transition functions:

* The client socket is modelled as a byte source (`src : List Nat`) plus an
  open/closed flag.  A `Read` on a closed socket returns an error in Go which
  the code ignores, leaving the zero-initialised buffer untouched; the model
  returns byte 0 in that case.  A `Write` on a closed socket fails and puts
  nothing on the wire; the model drops the event.
* External capabilities (`net.LookupIP`, `net.Dial`) are oracles in an `Env`
  record.  `net.Dial` of an empty address always fails in Go ("missing
  address"), which is baked into `netDial`.
* Observable behaviour is an event list: reply frames actually written to the
  client, the method-selection (greeting) reply, dial attempts, and entry
  into the relay phase.
* A nil-pointer dereference (a Go panic) is recorded in the `crashed` field
  of the `server.go` state; once set, the remaining statements of the
  function do not execute, and `handle`'s deferred close still runs.
-/

namespace Socks

/-- SOCKS protocol version constant (`socksVersion = uint8(5)`). -/
def socksVersion : Nat := 5

/-- The only supported authentication method (`noAuth = 0x00`). -/
def noAuth : Nat := 0x00

/-- Command `connect = 0x01`. -/
def connect : Nat := 0x01

/-- Command `bind = 0x02`. -/
def bind : Nat := 0x02

/-- Command `udpAssociate = 0x03`. -/
def udpAssociate : Nat := 0x03

/-- Address type `ipv4 = 0x01`. -/
def ipv4 : Nat := 0x01

/-- Address type `domainName = 0x03`. -/
def domainName : Nat := 0x03

/-- Address type `ipv6 = 0x04`. -/
def ipv6 : Nat := 0x04

/-- Reply code `succeeded = 0x00`. -/
def succeeded : Nat := 0x00

/-- Reply code `generalFailure = 0x01`. -/
def generalFailure : Nat := 0x01

/-- Reply code `networkUnreachable = 0x03`. -/
def networkUnreachable : Nat := 0x03

/-- Reply code `hostUnreachable = 0x04`. -/
def hostUnreachable : Nat := 0x04

/-- Reply code `connectionRefused = 0x05`. -/
def connectionRefused : Nat := 0x05

/-- Reply code `commandNotSupported = 0x07`. -/
def commandNotSupported : Nat := 0x07

/-- Reply code `addressTypeNotSupported = 0x08`. -/
def addressTypeNotSupported : Nat := 0x08

/-- Observable events of one session, in program order. -/
inductive Event
  | replyFrame (bytes : List Nat)
  | methodSelection (bytes : List Nat)
  | dialAttempt (addr : String)
  | relayEntered
deriving DecidableEq, Repr

/-- Is an event a SOCKS5 reply frame written to the client? -/
def isReplyFrame : Event → Bool
  | Event.replyFrame _ => true
  | _ => false

/-- Number of SOCKS5 reply frames among the events. -/
def frames (evs : List Event) : Nat := evs.countP isReplyFrame

/-- Outcome of `net.Dial`: a connection with its local bound address, or an
error with the Go error message. -/
inductive DialResult
  | ok (boundIP : List Nat) (boundPort : Nat)
  | err (msg : String)
deriving DecidableEq, Repr

/-- External capabilities consumed by a session: hostname resolution
(`net.LookupIP`, `none` meaning a non-nil error), TCP dialing, and the
outcome of the relay phase (`io.Copy` errors are summarised by the error
`exchange` would return). -/
structure Env where
  lookupIP : String → Option (List (List Nat))
  dial : String → DialResult
  exchangeErr : Option String

/-- Go's `net.LookupIP` returns a non-nil error whenever it found no
addresses, so a successful lookup yields a non-empty slice. -/
def LookupWF (env : Env) : Prop :=
  ∀ h ips, env.lookupIP h = some ips → ips ≠ []

/-- `net.Dial("tcp", addr)`: dialing an empty address fails with
"missing address" before any network activity. -/
def netDial (env : Env) (addr : String) : DialResult :=
  if addr = "" then DialResult.err "dial tcp: missing address" else env.dial addr

/-- `strings.Contains(s, sub)`: `sub` occurs as a contiguous substring. -/
def strContains (s sub : String) : Bool := decide (sub.data <:+: s.data)

/-- Rendering of an IP address as Go's `net.IP.String` / `netip.Addr.String`
produce it for the `%v` / `%s` format verbs: dotted quad for 4-byte
addresses; for other lengths a colon-separated form (the exact RFC 5952
compression of IPv6 text is not reproduced, only an injective rendering). -/
def ipString (ip : List Nat) : String :=
  if ip.length = 4 then String.intercalate "." (ip.map toString)
  else String.intercalate ":" (ip.map toString)

/-- Go's `string(bytes)` conversion used for the FQDN. -/
def bytesToString (bs : List Nat) : String := String.mk (bs.map Char.ofNat)

end Socks

namespace Socks.SG

/-- The `SocksProxy` struct of `server.go`, together with the modelled
client-socket state (`conn_open`, `src`) and the panic flag (`crashed`). -/
structure State where
  conn_open : Bool
  command : Nat
  addressType : Nat
  reply : Nat
  IP : List Nat
  FQDN : String
  dstPort : Nat
  remote : Option (List Nat × Nat)
  methods : List Nat
  crashed : Option String
  src : List Nat
deriving DecidableEq, Repr

/-- `NewProxy`: fresh session on an accepted connection delivering `input`. -/
def init (input : List Nat) : State :=
  { conn_open := true, command := 0, addressType := 0, reply := 0, IP := []
    FQDN := "", dstPort := 0, remote := none, methods := [], crashed := none
    src := input }

/-- One `conn.Read` of a single byte.  A read on a closed socket errors and
leaves the zero-initialised buffer untouched (the code ignores the error). -/
def read1 (s : State) : Nat × State :=
  if s.conn_open then
    match s.src with
    | [] => (0, s)
    | b :: rest => (b % 256, { s with src := rest })
  else (0, s)

/-- Reading `n` bytes (either one `conn.Read` of an `n`-byte buffer or `n`
single-byte reads; under the byte-stream model these agree). -/
def readBytes : Nat → State → List Nat × State
  | 0, s => ([], s)
  | Nat.succ k, s =>
    let p := read1 s
    let q := readBytes k p.2
    (p.1 :: q.1, q.2)

/-- `generateReply`: `[version, reply, 0, addressType] ++ ip ++ port_be`.
The `uint8` casts of the Go source are the `% 256` / `&&& 255` operations. -/
def generateReply (s : State) (ip : List Nat) (port : Nat) : List Nat :=
  [socksVersion, s.reply % 256, 0, s.addressType % 256] ++ ip
    ++ [(port >>> 8) % 256, port &&& 255]

/-- `generateSucceededReply` forwards to `generateReply`. -/
def generateSucceededReply (s : State) (ip : List Nat) (port : Nat) : List Nat :=
  generateReply s ip port

/-- `generateFailedReply` forwards to `generateReply`. -/
def generateFailedReply (s : State) (ip : List Nat) (port : Nat) : List Nat :=
  generateReply s ip port

/-- `closeConnection`: unconditionally `s.conn.Close()`. -/
def closeConnection (s : State) : State := { s with conn_open := false }

/-- `closeConnectionWithError`: set the reply code, write
`generateFailedReply([]byte{0}, 0)` (a single zero address byte), close.
The write reaches the wire only while the socket is still open. -/
def closeConnectionWithError (err : Nat) (s : State) : State × List Event :=
  let s1 := { s with reply := err }
  let payload := generateFailedReply s1 [0] 0
  let evs := if s1.conn_open then [Event.replyFrame payload] else []
  (closeConnection s1, evs)

/-- `ensureVersion`. -/
def ensureVersion (v : Nat) (s : State) : State × List Event :=
  if v ≠ socksVersion then closeConnectionWithError generalFailure s else (s, [])

/-- `ensureNMethod`. -/
def ensureNMethod (n : Nat) (s : State) : State × List Event :=
  if ¬ (1 ≤ n ∧ n ≤ 255) then closeConnectionWithError generalFailure s
  else (s, [])

/-- `getAvailableMethods`: read `n` single method bytes. -/
def getAvailableMethods (n : Nat) (s : State) : List Nat × State :=
  readBytes n s

/-- A `conn.Write`: the event reaches the wire only while open. -/
def connWrite (s : State) (e : Event) : List Event :=
  if s.conn_open then [e] else []

/-- `handleGreetings`: read version and nmethod bytes, validate, read the
offered methods, reply `[socksVersion, noAuth]`. -/
def handleGreetings (s : State) : State × List Event :=
  let p1 := read1 s
  let p2 := read1 p1.2
  let q1 := ensureVersion p1.1 p2.2
  let q2 := ensureNMethod p2.1 q1.1
  let m := getAvailableMethods p2.1 q2.1
  let s6 := { m.2 with methods := m.1 }
  let e3 := connWrite s6 (Event.methodSelection [socksVersion, noAuth])
  (s6, q1.2 ++ q2.2 ++ e3)

/-- `parseAddress`: per address type read the raw address bytes, the
length-prefixed FQDN, or fail with address-type-not-supported. -/
def parseAddress (s : State) : State × List Event :=
  if s.addressType = ipv4 then
    let p := readBytes 4 s
    ({ p.2 with IP := p.1 }, [])
  else if s.addressType = domainName then
    let p := read1 s
    let q := readBytes p.1 p.2
    ({ q.2 with FQDN := bytesToString q.1 }, [])
  else if s.addressType = ipv6 then
    let p := readBytes 16 s
    ({ p.2 with IP := p.1 }, [])
  else
    closeConnectionWithError addressTypeNotSupported s

/-- `parsePort`: two big-endian bytes. -/
def parsePort (s : State) : State :=
  let p := read1 s
  let q := read1 p.2
  { q.2 with dstPort := (p.1 <<< 8) ||| q.1 }

/-- `handleRequestHeader`: read `[version, command, reserved, addressType]`,
validate the version, record command and address type, parse address and
port. -/
def handleRequestHeader (s : State) : State × List Event :=
  let h1 := read1 s
  let h2 := read1 h1.2
  let h3 := read1 h2.2
  let h4 := read1 h3.2
  let q1 := ensureVersion h1.1 h4.2
  let s6 := { q1.1 with command := h2.1, addressType := h4.1 }
  let q2 := parseAddress s6
  (parsePort q2.1, q1.2 ++ q2.2)

/-- `constructRemoteAddress`: format `ip:port` for ipv4/ipv6; resolve the
FQDN for domain names, taking the first result and setting the address type
to ipv4; otherwise fail.  On a lookup error the code closes the session and
then indexes `ips[0]` of the nil slice, a panic; an empty result slice
panics without a reply. -/
def constructRemoteAddress (env : Env) (s : State) : String × State × List Event :=
  if s.addressType = ipv4 ∨ s.addressType = ipv6 then
    (ipString s.IP ++ ":" ++ toString s.dstPort, s, [])
  else if s.addressType = domainName then
    match env.lookupIP s.FQDN with
    | none =>
      let q := closeConnectionWithError generalFailure s
      ("", { q.1 with crashed := some "constructRemoteAddress: ips[0] index out of range" }, q.2)
    | some [] =>
      ("", { s with crashed := some "constructRemoteAddress: ips[0] index out of range" }, [])
    | some (ip0 :: _) =>
      (ipString ip0 ++ ":" ++ toString s.dstPort, { s with addressType := ipv4 }, [])
  else
    let q := closeConnectionWithError addressTypeNotSupported s
    ("", q.1, q.2)

/-- `handleCommandConnect`: build the remote address, `net.Dial` it, classify
a dial error into a reply code by the error-message text.  After the error
branch the function falls through to `remote.LocalAddr()` on the nil
connection, a panic.  On success, record the succeeded reply and build the
reply frame from the dialed connection's local bound address. -/
def handleCommandConnect (env : Env) (s : State) : List Nat × State × List Event :=
  let c := constructRemoteAddress env s
  let remoteAddress := c.1
  match c.2.1.crashed with
  | some _ => ([], c.2.1, c.2.2)
  | none =>
    match netDial env remoteAddress with
    | DialResult.err msg =>
      let s2 := { c.2.1 with remote := none }
      let q :=
        if strContains msg "network is unreachable" then
          closeConnectionWithError networkUnreachable s2
        else if strContains msg "refused" then
          closeConnectionWithError connectionRefused s2
        else closeConnectionWithError hostUnreachable s2
      ([], { q.1 with crashed := some "handleCommandConnect: remote.LocalAddr on nil remote" },
        c.2.2 ++ [Event.dialAttempt remoteAddress] ++ q.2)
    | DialResult.ok bip bport =>
      let s2 := { c.2.1 with remote := some (bip, bport), reply := succeeded }
      (generateSucceededReply s2 bip bport, s2, c.2.2 ++ [Event.dialAttempt remoteAddress])

/-- `handleRequestCommand`: dispatch on the command byte; every command other
than connect replies command-not-supported and closes the session, returning
the `Unsupported command` error (modelled by the `Bool` component). -/
def handleRequestCommand (env : Env) (s : State) : List Nat × Bool × State × List Event :=
  if s.command = connect then
    let r := handleCommandConnect env s
    (r.1, false, r.2.1, r.2.2)
  else if s.command = bind then
    let q := closeConnectionWithError commandNotSupported s
    ([], true, q.1, q.2)
  else if s.command = udpAssociate then
    let q := closeConnectionWithError commandNotSupported s
    ([], true, q.1, q.2)
  else
    let q := closeConnectionWithError commandNotSupported s
    ([], true, q.1, q.2)

/-- `doReplyAction`: enter the relay (`exchange(s.conn, s.remote)`) exactly
when the command is connect and the recorded reply is succeeded.  The relay
itself is modelled in detail separately (`Socks.WGX` / `Socks.CHX`); here its
outcome is summarised by the environment's `exchangeErr`. -/
def doReplyAction (env : Env) (s : State) : Bool × State × List Event :=
  if s.command = connect then
    if s.reply = succeeded then
      (env.exchangeErr.isSome, s, [Event.relayEntered])
    else (false, s, [])
  else (false, s, [])

/-- `handle`: the public per-connection entry point of `server.go`.  Runs the
handshake phases in order; a panic (`crashed`) aborts the remaining
statements but the deferred `closeConnection` still runs.  Before the
`server.remote != nil` guard the code calls `server.remote.RemoteAddr()`,
which panics whenever no outbound connection was established. -/
def handle (env : Env) (input : List Nat) : State × List Event :=
  let s0 := init input
  let g := handleGreetings s0
  let h := handleRequestHeader g.1
  let r := handleRequestCommand env h.1
  let payload := r.1
  match r.2.2.1.crashed with
  | some _ => (closeConnection r.2.2.1, g.2 ++ h.2 ++ r.2.2.2)
  | none =>
    let e4 := if payload.length > 0 then connWrite r.2.2.1 (Event.replyFrame payload) else []
    let d := doReplyAction env r.2.2.1
    match d.2.1.remote with
    | none =>
      (closeConnection { d.2.1 with crashed := some "handle: remote.RemoteAddr on nil remote" },
        g.2 ++ h.2 ++ r.2.2.2 ++ e4 ++ d.2.2)
    | some _ => (closeConnection d.2.1, g.2 ++ h.2 ++ r.2.2.2 ++ e4 ++ d.2.2)

end Socks.SG

namespace Socks.P1

/-- The `SocksProxy` struct of the `part_001` variant.  `conn_open = false`
models `s.conn == nil` (the variant nils the handle out as its close
signal); `IP = none` models the invalid zero `netip.Addr`. -/
structure State where
  conn_open : Bool
  command : Nat
  addressType : Nat
  reply : Nat
  IP : Option (List Nat)
  FQDN : String
  dstPort : Nat
  remote : Option (List Nat × Nat)
  methods : List Nat
  src : List Nat
deriving DecidableEq, Repr

/-- `NewProxy` of the `part_001` variant. -/
def init (input : List Nat) : State :=
  { conn_open := true, command := 0, addressType := 0, reply := 0, IP := none
    FQDN := "", dstPort := 0, remote := none, methods := [], src := input }

/-- One `conn.Read` of a single byte (see `SG.read1`). -/
def read1 (s : State) : Nat × State :=
  if s.conn_open then
    match s.src with
    | [] => (0, s)
    | b :: rest => (b % 256, { s with src := rest })
  else (0, s)

/-- Reading `n` bytes. -/
def readBytes : Nat → State → List Nat × State
  | 0, s => ([], s)
  | Nat.succ k, s =>
    let p := read1 s
    let q := readBytes k p.2
    (p.1 :: q.1, q.2)

/-- `generateReply` of `part_001`: takes a `netip.AddrPort`; an invalid
address (`none`) yields an empty payload. -/
def generateReply (s : State) (addrPort : Option (List Nat × Nat)) : List Nat :=
  match addrPort with
  | none => []
  | some (ip, prt) =>
    [socksVersion, s.reply % 256, 0, s.addressType % 256] ++ ip
      ++ [(prt >>> 8) % 256, prt &&& 255]

/-- `generateSucceededReply` forwards to `generateReply`. -/
def generateSucceededReply (s : State) (addrPort : Option (List Nat × Nat)) : List Nat :=
  generateReply s addrPort

/-- `generateFailedReply` forwards to `generateReply`. -/
def generateFailedReply (s : State) (addrPort : Option (List Nat × Nat)) : List Nat :=
  generateReply s addrPort

/-- `closeConnection`: a no-op when the connection is already nil, else close
and nil it out. -/
def closeConnection (s : State) : State :=
  if s.conn_open = false then s else { s with conn_open := false }

/-- `closeConnectionWithError`: a no-op when the connection is already nil
(the reply field is then not even set); else record the reply code, write
`generateFailedReply(netip.MustParseAddrPort("0.0.0.0:0"))` and close. -/
def closeConnectionWithError (reply : Nat) (s : State) : State × List Event :=
  if s.conn_open = false then (s, [])
  else
    let s1 := { s with reply := reply }
    let payload := generateFailedReply s1 (some ([0, 0, 0, 0], 0))
    (closeConnection s1, [Event.replyFrame payload])

/-- `ensureVersion`. -/
def ensureVersion (v : Nat) (s : State) : State × List Event :=
  if v ≠ socksVersion then closeConnectionWithError generalFailure s else (s, [])

/-- `ensureNMethod`. -/
def ensureNMethod (n : Nat) (s : State) : State × List Event :=
  if ¬ (1 ≤ n ∧ n ≤ 255) then closeConnectionWithError generalFailure s
  else (s, [])

/-- `getAvailableMethods`. -/
def getAvailableMethods (n : Nat) (s : State) : List Nat × State :=
  readBytes n s

/-- `handleGreetings` of `part_001`: the `ensureVersion` call after reading
the greeting version byte is commented out in the source; only the
`s.conn == nil` check (never true at this point) remains, so any version
byte is accepted.  An invalid nmethod closes the session and returns an
error. -/
def handleGreetings (s : State) : State × List Event × Option String :=
  let p1 := read1 s
  let p2 := read1 p1.2
  if p2.2.conn_open = false then
    (p2.2, [], some "connection closed due to invalid version")
  else
    let q := ensureNMethod p2.1 p2.2
    if q.1.conn_open = false then
      (q.1, q.2, some "connection closed due to invalid nmethod")
    else
      let m := getAvailableMethods p2.1 q.1
      let s5 := { m.2 with methods := m.1 }
      (s5, q.2 ++ [Event.methodSelection [socksVersion, noAuth]], none)

/-- `parseAddress` of `part_001`. -/
def parseAddress (s : State) : State × List Event :=
  if s.addressType = ipv4 then
    let p := readBytes 4 s
    ({ p.2 with IP := some p.1 }, [])
  else if s.addressType = domainName then
    let p := read1 s
    let q := readBytes p.1 p.2
    ({ q.2 with FQDN := bytesToString q.1 }, [])
  else if s.addressType = ipv6 then
    let p := readBytes 16 s
    ({ p.2 with IP := some p.1 }, [])
  else
    closeConnectionWithError addressTypeNotSupported s

/-- `parsePort`. -/
def parsePort (s : State) : State :=
  let p := read1 s
  let q := read1 p.2
  { q.2 with dstPort := (p.1 <<< 8) ||| q.1 }

/-- `handleRequestHeader` of `part_001`: after each step that may have closed
the connection, the nil check turns the closure into an early error
return. -/
def handleRequestHeader (s : State) : State × List Event × Option String :=
  let h1 := read1 s
  let h2 := read1 h1.2
  let h3 := read1 h2.2
  let h4 := read1 h3.2
  let q1 := ensureVersion h1.1 h4.2
  if q1.1.conn_open = false then
    (q1.1, q1.2, some "connection closed due to invalid version")
  else
    let s6 := { q1.1 with command := h2.1, addressType := h4.1 }
    let q2 := parseAddress s6
    if q2.1.conn_open = false then
      (q2.1, q1.2 ++ q2.2, some "connection closed due to invalid address type")
    else
      (parsePort q2.1, q1.2 ++ q2.2, none)

/-- Rendering of `s.IP` (a `netip.Addr`) by the `%v` verb: the invalid zero
address prints as "invalid Addr". -/
def addrString (ip : Option (List Nat)) : String :=
  match ip with
  | some bytes => ipString bytes
  | none => "invalid Addr"

/-- `constructRemoteAddress` of `part_001`: lookup errors and empty result
lists are both caught and close the session with a general failure; the
result slice is only indexed under a `len(ips) > 0` guard, and the address
type is then set to ipv4 unconditionally. -/
def constructRemoteAddress (env : Env) (s : State) : String × State × List Event :=
  if s.addressType = ipv4 ∨ s.addressType = ipv6 then
    (addrString s.IP ++ ":" ++ toString s.dstPort, s, [])
  else if s.addressType = domainName then
    match env.lookupIP s.FQDN with
    | none =>
      let q := closeConnectionWithError generalFailure s
      ("", q.1, q.2)
    | some [] =>
      let q := closeConnectionWithError generalFailure s
      ("", q.1, q.2)
    | some (ip0 :: _) =>
      (ipString ip0 ++ ":" ++ toString s.dstPort, { s with addressType := ipv4 }, [])
  else
    let q := closeConnectionWithError addressTypeNotSupported s
    ("", q.1, q.2)

/-- `handleCommandConnect` of `part_001`: an early closure inside
`constructRemoteAddress` is caught by the `s.conn == nil` check; dial errors
are classified by message text and returned as errors. -/
def handleCommandConnect (env : Env) (s : State) :
    List Nat × State × List Event × Option String :=
  let c := constructRemoteAddress env s
  let remoteAddress := c.1
  if c.2.1.conn_open = false then ([], c.2.1, c.2.2, some "Connection closed early")
  else
    match netDial env remoteAddress with
    | DialResult.err msg =>
      let s2 := { c.2.1 with remote := none }
      let q :=
        if strContains msg "network is unreachable" then
          closeConnectionWithError networkUnreachable s2
        else if strContains msg "refused" then
          closeConnectionWithError connectionRefused s2
        else closeConnectionWithError hostUnreachable s2
      ([], q.1, c.2.2 ++ [Event.dialAttempt remoteAddress] ++ q.2,
        some ("Failed to dial remote: " ++ remoteAddress))
    | DialResult.ok bip bport =>
      let s2 := { c.2.1 with remote := some (bip, bport), reply := succeeded }
      (generateSucceededReply s2 (some (bip, bport)), s2,
        c.2.2 ++ [Event.dialAttempt remoteAddress], none)

/-- `handleRequestCommand` of `part_001`. -/
def handleRequestCommand (env : Env) (s : State) :
    List Nat × State × List Event × Option String :=
  if s.command = connect then
    handleCommandConnect env s
  else if s.command = bind then
    let q := closeConnectionWithError commandNotSupported s
    ([], q.1, q.2, some "Unsupported command")
  else if s.command = udpAssociate then
    let q := closeConnectionWithError commandNotSupported s
    ([], q.1, q.2, some "Unsupported command")
  else
    let q := closeConnectionWithError commandNotSupported s
    ([], q.1, q.2, some "Unsupported command")

/-- `doReplyAction` of `part_001` (same shape as `SG.doReplyAction`). -/
def doReplyAction (env : Env) (s : State) : Bool × State × List Event :=
  if s.command = connect then
    if s.reply = succeeded then
      (env.exchangeErr.isSome, s, [Event.relayEntered])
    else (false, s, [])
  else (false, s, [])

/-- A `conn.Write` of the success payload. -/
def connWrite (s : State) (e : Event) : List Event :=
  if s.conn_open then [e] else []

/-- `handle` of `part_001`: each phase error returns early; the remote
connection is only touched under a `server.remote != nil` guard; the
deferred `closeConnection` (idempotent) runs on every path. -/
def handle (env : Env) (input : List Nat) : State × List Event :=
  let s0 := init input
  let g := handleGreetings s0
  match g.2.2 with
  | some _ => (closeConnection g.1, g.2.1)
  | none =>
    let h := handleRequestHeader g.1
    match h.2.2 with
    | some _ => (closeConnection h.1, g.2.1 ++ h.2.1)
    | none =>
      let r := handleRequestCommand env h.1
      match r.2.2.2 with
      | some _ => (closeConnection r.2.1, g.2.1 ++ h.2.1 ++ r.2.2.1)
      | none =>
        let e4 := if r.1.length > 0 then connWrite r.2.1 (Event.replyFrame r.1) else []
        let d := doReplyAction env r.2.1
        (closeConnection d.2.1, g.2.1 ++ h.2.1 ++ r.2.2.1 ++ e4 ++ d.2.2)

end Socks.P1

namespace Socks

/-- Events observable during the relay phase.  `copyDone dir e` is the
completion of the `io.Copy` of direction `dir` (1 = client→remote,
2 = remote→client) with its error result; `closeWrite dir` is the half-close
(`CloseWrite`) of direction `dir`'s destination connection; `ret` is the
return of `exchange`. -/
inductive REvent
  | copyDone (dir : Nat) (e : Option String)
  | closeWrite (dir : Nat)
  | ret
deriving DecidableEq, Repr

end Socks

namespace Socks.WGX

/-- Interleaving state of the `part_001` `exchange`: two proxy goroutines
(`g1pc`, `g2pc` step through copy → CloseWrite → wg.Done → finished) and the
main goroutine blocked in `wg.Wait()` until the counter reaches zero. -/
structure State where
  g1pc : Nat
  g2pc : Nat
  wg : Nat
  retDone : Bool
  trace : List REvent
deriving DecidableEq, Repr

/-- `exchange` entry: `wg.Add(2)`, both goroutines spawned at their first
statement, main about to `wg.Wait()`. -/
def start : State := { g1pc := 0, g2pc := 0, wg := 2, retDone := false, trace := [] }

/-- One step of the first proxy goroutine (`go proxy(remote, client)`, the
client→remote direction), whose `io.Copy` result is `e`:
`io.Copy(dst, src)` (and error logging), then `dst.(*net.TCPConn).CloseWrite()`,
then `wg.Done()`. -/
def g1Step (e : Option String) (s : State) : State :=
  match s.g1pc with
  | 0 => { s with g1pc := 1, trace := s.trace ++ [REvent.copyDone 1 e] }
  | 1 => { s with g1pc := 2, trace := s.trace ++ [REvent.closeWrite 1] }
  | 2 => { s with g1pc := 3, wg := s.wg - 1 }
  | _ => s

/-- One step of the second proxy goroutine (`go proxy(client, remote)`). -/
def g2Step (e : Option String) (s : State) : State :=
  match s.g2pc with
  | 0 => { s with g2pc := 1, trace := s.trace ++ [REvent.copyDone 2 e] }
  | 1 => { s with g2pc := 2, trace := s.trace ++ [REvent.closeWrite 2] }
  | 2 => { s with g2pc := 3, wg := s.wg - 1 }
  | _ => s

/-- One step of the main goroutine: `wg.Wait()` blocks until the counter is
zero, then `exchange` returns nil. -/
def mStep (s : State) : State :=
  if s.retDone then s
  else if s.wg = 0 then { s with retDone := true, trace := s.trace ++ [REvent.ret] }
  else s

/-- Scheduler step: thread 0 is main, 1 and 2 the two proxy goroutines. -/
def step (e1 e2 : Option String) (tid : Nat) (s : State) : State :=
  if tid = 0 then mStep s
  else if tid = 1 then g1Step e1 s
  else g2Step e2 s

/-- Run `exchange` of `part_001` under an arbitrary interleaving `sched`,
with `e1`/`e2` the `io.Copy` results of the two directions. -/
def run (e1 e2 : Option String) (sched : List Nat) : State :=
  sched.foldl (fun s t => step e1 e2 t s) start

end Socks.WGX

namespace Socks.CHX

/-- Interleaving state of the `server.go` `exchange`: two proxy goroutines
(copy → `errCh <- err` → finished) and a main goroutine receiving from the
buffered error channel twice, returning early on the first non-nil error.
`mpc` 0/1 = about to do the first/second receive, 2 = returned. -/
structure State where
  g1pc : Nat
  g2pc : Nat
  ch : List (Option String)
  mpc : Nat
  retErr : Option (Option String)
  trace : List REvent
deriving DecidableEq, Repr

/-- `exchange` entry: buffered channel of capacity 2, both goroutines
spawned, main about to receive. -/
def start : State :=
  { g1pc := 0, g2pc := 0, ch := [], mpc := 0, retErr := none, trace := [] }

/-- One step of the first proxy goroutine: `io.Copy(dst, src)` (with error
logging), then `errCh <- err`.  No half-close is performed. -/
def g1Step (e : Option String) (s : State) : State :=
  match s.g1pc with
  | 0 => { s with g1pc := 1, trace := s.trace ++ [REvent.copyDone 1 e] }
  | 1 => { s with g1pc := 2, ch := s.ch ++ [e] }
  | _ => s

/-- One step of the second proxy goroutine. -/
def g2Step (e : Option String) (s : State) : State :=
  match s.g2pc with
  | 0 => { s with g2pc := 1, trace := s.trace ++ [REvent.copyDone 2 e] }
  | 1 => { s with g2pc := 2, ch := s.ch ++ [e] }
  | _ => s

/-- One step of the main goroutine: `for i := 0; i < 2; i++ { if err :=
<-errCh; err != nil { return err } }; return nil`.  A receive blocks on an
empty channel; a non-nil received error returns immediately. -/
def mStep (s : State) : State :=
  match s.mpc, s.ch with
  | 0, v :: rest =>
    if v.isSome then
      { s with mpc := 2, ch := rest, retErr := some v, trace := s.trace ++ [REvent.ret] }
    else { s with mpc := 1, ch := rest }
  | 1, v :: rest =>
    { s with mpc := 2, ch := rest, retErr := some v, trace := s.trace ++ [REvent.ret] }
  | _, _ => s

/-- Scheduler step: thread 0 is main, 1 and 2 the two proxy goroutines. -/
def step (e1 e2 : Option String) (tid : Nat) (s : State) : State :=
  if tid = 0 then mStep s
  else if tid = 1 then g1Step e1 s
  else g2Step e2 s

/-- Run `exchange` of `server.go` under an arbitrary interleaving. -/
def run (e1 e2 : Option String) (sched : List Nat) : State :=
  sched.foldl (fun s t => step e1 e2 t s) start

end Socks.CHX

namespace Socks

@[simp]
lemma frames_nil : frames [] = 0 := rfl

@[simp]
lemma frames_append (a b : List Event) : frames (a ++ b) = frames a + frames b :=
  List.countP_append _ _ _

@[simp]
lemma frames_cons (e : Event) (evs : List Event) :
    frames (e :: evs) = frames evs + (if isReplyFrame e then 1 else 0) :=
  List.countP_cons _ _ _

@[simp]
lemma isReplyFrame_replyFrame (bs : List Nat) : isReplyFrame (Event.replyFrame bs) = true := rfl

@[simp]
lemma isReplyFrame_methodSelection (bs : List Nat) :
    isReplyFrame (Event.methodSelection bs) = false := rfl

@[simp]
lemma isReplyFrame_dialAttempt (a : String) : isReplyFrame (Event.dialAttempt a) = false := rfl

@[simp]
lemma isReplyFrame_relayEntered : isReplyFrame Event.relayEntered = false := rfl

end Socks

namespace Socks.SG

lemma read1_shape (s : State) : ∃ b rest, read1 s = (b, { s with src := rest }) := by
  unfold read1
  split
  · cases hs : s.src with
    | nil => exact ⟨0, s.src, by simp⟩
    | cons b rest => exact ⟨b % 256, rest, by simp⟩
  · exact ⟨0, s.src, by simp⟩

lemma readBytes_shape (n : Nat) (s : State) :
    ∃ bs rest, readBytes n s = (bs, { s with src := rest }) := by
  induction n generalizing s with
  | zero => exact ⟨[], s.src, by simp [readBytes]⟩
  | succ k ih =>
    obtain ⟨b, r1, h1⟩ := read1_shape s
    obtain ⟨bs, r2, h2⟩ := ih { s with src := r1 }
    exact ⟨b :: bs, r2, by simp [readBytes, h1, h2]⟩

/-- `closeConnectionWithError` in closed form. -/
lemma closeConnectionWithError_eq (err : Nat) (s : State) :
    closeConnectionWithError err s =
      ({ s with reply := err, conn_open := false },
        if s.conn_open then
          [Event.replyFrame [socksVersion, err % 256, 0, s.addressType % 256, 0, 0, 0]]
        else []) := by
  simp [closeConnectionWithError, generateFailedReply, generateReply, closeConnection]

@[simp]
lemma read1_conn_open (s : State) : ((read1 s).2).conn_open = s.conn_open := by
  obtain ⟨b, r, h⟩ := read1_shape s; simp [h]

@[simp]
lemma read1_command (s : State) : ((read1 s).2).command = s.command := by
  obtain ⟨b, r, h⟩ := read1_shape s; simp [h]

@[simp]
lemma read1_addressType (s : State) : ((read1 s).2).addressType = s.addressType := by
  obtain ⟨b, r, h⟩ := read1_shape s; simp [h]

@[simp]
lemma read1_reply (s : State) : ((read1 s).2).reply = s.reply := by
  obtain ⟨b, r, h⟩ := read1_shape s; simp [h]

@[simp]
lemma read1_IP (s : State) : ((read1 s).2).IP = s.IP := by
  obtain ⟨b, r, h⟩ := read1_shape s; simp [h]

@[simp]
lemma read1_FQDN (s : State) : ((read1 s).2).FQDN = s.FQDN := by
  obtain ⟨b, r, h⟩ := read1_shape s; simp [h]

@[simp]
lemma read1_dstPort (s : State) : ((read1 s).2).dstPort = s.dstPort := by
  obtain ⟨b, r, h⟩ := read1_shape s; simp [h]

@[simp]
lemma read1_remote (s : State) : ((read1 s).2).remote = s.remote := by
  obtain ⟨b, r, h⟩ := read1_shape s; simp [h]

@[simp]
lemma read1_crashed (s : State) : ((read1 s).2).crashed = s.crashed := by
  obtain ⟨b, r, h⟩ := read1_shape s; simp [h]

@[simp]
lemma readBytes_conn_open (n : Nat) (s : State) :
    ((readBytes n s).2).conn_open = s.conn_open := by
  obtain ⟨bs, r, h⟩ := readBytes_shape n s; simp [h]

@[simp]
lemma readBytes_command (n : Nat) (s : State) : ((readBytes n s).2).command = s.command := by
  obtain ⟨bs, r, h⟩ := readBytes_shape n s; simp [h]

@[simp]
lemma readBytes_addressType (n : Nat) (s : State) :
    ((readBytes n s).2).addressType = s.addressType := by
  obtain ⟨bs, r, h⟩ := readBytes_shape n s; simp [h]

@[simp]
lemma readBytes_reply (n : Nat) (s : State) : ((readBytes n s).2).reply = s.reply := by
  obtain ⟨bs, r, h⟩ := readBytes_shape n s; simp [h]

@[simp]
lemma readBytes_IP (n : Nat) (s : State) : ((readBytes n s).2).IP = s.IP := by
  obtain ⟨bs, r, h⟩ := readBytes_shape n s; simp [h]

@[simp]
lemma readBytes_FQDN (n : Nat) (s : State) : ((readBytes n s).2).FQDN = s.FQDN := by
  obtain ⟨bs, r, h⟩ := readBytes_shape n s; simp [h]

@[simp]
lemma readBytes_dstPort (n : Nat) (s : State) : ((readBytes n s).2).dstPort = s.dstPort := by
  obtain ⟨bs, r, h⟩ := readBytes_shape n s; simp [h]

@[simp]
lemma readBytes_remote (n : Nat) (s : State) : ((readBytes n s).2).remote = s.remote := by
  obtain ⟨bs, r, h⟩ := readBytes_shape n s; simp [h]

@[simp]
lemma readBytes_crashed (n : Nat) (s : State) : ((readBytes n s).2).crashed = s.crashed := by
  obtain ⟨bs, r, h⟩ := readBytes_shape n s; simp [h]

end Socks.SG

namespace Socks.P1

lemma read1_shapeP (s : State) : ∃ b rest, read1 s = (b, { s with src := rest }) := by
  unfold read1
  split
  · cases hs : s.src with
    | nil => exact ⟨0, s.src, by simp⟩
    | cons b rest => exact ⟨b % 256, rest, by simp⟩
  · exact ⟨0, s.src, by simp⟩

lemma readBytes_shapeP (n : Nat) (s : State) :
    ∃ bs rest, readBytes n s = (bs, { s with src := rest }) := by
  induction n generalizing s with
  | zero => exact ⟨[], s.src, by simp [readBytes]⟩
  | succ k ih =>
    obtain ⟨b, r1, h1⟩ := read1_shapeP s
    obtain ⟨bs, r2, h2⟩ := ih { s with src := r1 }
    exact ⟨b :: bs, r2, by simp [readBytes, h1, h2]⟩

/-- `closeConnectionWithError` in closed form. -/
lemma closeConnectionWithError_eqP (r : Nat) (s : State) :
    closeConnectionWithError r s =
      if s.conn_open then
        ({ s with reply := r, conn_open := false },
          [Event.replyFrame
            [socksVersion, r % 256, 0, s.addressType % 256, 0, 0, 0, 0, 0, 0]])
      else (s, []) := by
  by_cases h : s.conn_open <;>
    simp [closeConnectionWithError, generateFailedReply, generateReply, closeConnection, h]

@[simp]
lemma read1_conn_openP (s : State) : ((read1 s).2).conn_open = s.conn_open := by
  obtain ⟨b, r, h⟩ := read1_shapeP s; simp [h]

@[simp]
lemma read1_commandP (s : State) : ((read1 s).2).command = s.command := by
  obtain ⟨b, r, h⟩ := read1_shapeP s; simp [h]

@[simp]
lemma read1_addressTypeP (s : State) : ((read1 s).2).addressType = s.addressType := by
  obtain ⟨b, r, h⟩ := read1_shapeP s; simp [h]

@[simp]
lemma read1_replyP (s : State) : ((read1 s).2).reply = s.reply := by
  obtain ⟨b, r, h⟩ := read1_shapeP s; simp [h]

@[simp]
lemma read1_IPP (s : State) : ((read1 s).2).IP = s.IP := by
  obtain ⟨b, r, h⟩ := read1_shapeP s; simp [h]

@[simp]
lemma read1_FQDNP (s : State) : ((read1 s).2).FQDN = s.FQDN := by
  obtain ⟨b, r, h⟩ := read1_shapeP s; simp [h]

@[simp]
lemma read1_dstPortP (s : State) : ((read1 s).2).dstPort = s.dstPort := by
  obtain ⟨b, r, h⟩ := read1_shapeP s; simp [h]

@[simp]
lemma read1_remoteP (s : State) : ((read1 s).2).remote = s.remote := by
  obtain ⟨b, r, h⟩ := read1_shapeP s; simp [h]

@[simp]
lemma readBytes_conn_openP (n : Nat) (s : State) :
    ((readBytes n s).2).conn_open = s.conn_open := by
  obtain ⟨bs, r, h⟩ := readBytes_shapeP n s; simp [h]

@[simp]
lemma readBytes_commandP (n : Nat) (s : State) : ((readBytes n s).2).command = s.command := by
  obtain ⟨bs, r, h⟩ := readBytes_shapeP n s; simp [h]

@[simp]
lemma readBytes_addressTypeP (n : Nat) (s : State) :
    ((readBytes n s).2).addressType = s.addressType := by
  obtain ⟨bs, r, h⟩ := readBytes_shapeP n s; simp [h]

@[simp]
lemma readBytes_replyP (n : Nat) (s : State) : ((readBytes n s).2).reply = s.reply := by
  obtain ⟨bs, r, h⟩ := readBytes_shapeP n s; simp [h]

@[simp]
lemma readBytes_IPP (n : Nat) (s : State) : ((readBytes n s).2).IP = s.IP := by
  obtain ⟨bs, r, h⟩ := readBytes_shapeP n s; simp [h]

@[simp]
lemma readBytes_FQDNP (n : Nat) (s : State) : ((readBytes n s).2).FQDN = s.FQDN := by
  obtain ⟨bs, r, h⟩ := readBytes_shapeP n s; simp [h]

@[simp]
lemma readBytes_dstPortP (n : Nat) (s : State) : ((readBytes n s).2).dstPort = s.dstPort := by
  obtain ⟨bs, r, h⟩ := readBytes_shapeP n s; simp [h]

@[simp]
lemma readBytes_remoteP (n : Nat) (s : State) : ((readBytes n s).2).remote = s.remote := by
  obtain ⟨bs, r, h⟩ := readBytes_shapeP n s; simp [h]

end Socks.P1

namespace Socks.SG

/-- Summary of `handleGreetings` used for the per-session reply accounting:
it closes the connection (emitting exactly one failure frame while open) or
leaves it open with no frame; it touches neither `remote`, `crashed` nor
`command`, and never enters the relay. -/
lemma handleGreetings_spec (s : State) :
    ((handleGreetings s).1.conn_open = true → s.conn_open = true) ∧
    frames (handleGreetings s).2 =
      (if s.conn_open = true ∧ (handleGreetings s).1.conn_open = false then 1 else 0) ∧
    (handleGreetings s).1.remote = s.remote ∧
    (handleGreetings s).1.crashed = s.crashed ∧
    (handleGreetings s).1.command = s.command ∧
    Event.relayEntered ∉ (handleGreetings s).2 := by
  by_cases ho : s.conn_open = true <;>
    by_cases hv : (read1 s).1 = socksVersion <;>
      by_cases hn : 1 ≤ (read1 (read1 s).2).1 ∧ (read1 (read1 s).2).1 ≤ 255 <;>
        simp [handleGreetings, ensureVersion, ensureNMethod, getAvailableMethods,
          closeConnectionWithError_eq, connWrite, hv, hn, ho]

end Socks.SG

namespace Socks.SG

set_option maxHeartbeats 1000000 in
/-- Summary of `handleRequestHeader` in the same shape (the `command` and
`addressType` fields are overwritten, so they are not tracked). -/
lemma handleRequestHeader_spec (s : State) :
    ((handleRequestHeader s).1.conn_open = true → s.conn_open = true) ∧
    frames (handleRequestHeader s).2 =
      (if s.conn_open = true ∧ (handleRequestHeader s).1.conn_open = false then 1 else 0) ∧
    (handleRequestHeader s).1.remote = s.remote ∧
    (handleRequestHeader s).1.crashed = s.crashed ∧
    Event.relayEntered ∉ (handleRequestHeader s).2 := by
  by_cases ho : s.conn_open = true <;>
    by_cases hv : (read1 s).1 = socksVersion <;>
      by_cases h4a : (read1 (read1 (read1 (read1 s).2).2).2).1 = ipv4 <;>
        by_cases h4b : (read1 (read1 (read1 (read1 s).2).2).2).1 = domainName <;>
          by_cases h4c : (read1 (read1 (read1 (read1 s).2).2).2).1 = ipv6 <;>
            simp_all [handleRequestHeader, ensureVersion, parseAddress, parsePort,
              closeConnectionWithError_eq, ipv4, domainName, ipv6]

end Socks.SG

namespace Socks.SG

/-- Boolean bookkeeping for chaining two phases' reply-frame counts. -/
lemma frames_chain (o0 o1 o2 : Bool) (h1 : o1 = true → o0 = true)
    (h2 : o2 = true → o1 = true) :
    ((if o0 = true ∧ o1 = false then 1 else 0) : Nat)
        + (if o1 = true ∧ o2 = false then 1 else 0)
      = if o0 = true ∧ o2 = false then 1 else 0 := by
  cases o0 <;> cases o1 <;> cases o2 <;> simp_all

/-- Summary of `constructRemoteAddress`: it emits at most the one failure
frame of a close, preserves `remote` and `command`, and whenever the
connection is still open afterwards no panic was recorded. -/
lemma constructRemoteAddress_spec (env : Env) (s : State) (hwf : LookupWF env)
    (hc : s.crashed = none) :
    ((constructRemoteAddress env s).2.1.conn_open = true →
      s.conn_open = true ∧ (constructRemoteAddress env s).2.1.crashed = none) ∧
    frames (constructRemoteAddress env s).2.2 =
      (if s.conn_open = true ∧ (constructRemoteAddress env s).2.1.conn_open = false
        then 1 else 0) ∧
    (constructRemoteAddress env s).2.1.remote = s.remote ∧
    (constructRemoteAddress env s).2.1.command = s.command ∧
    Event.relayEntered ∉ (constructRemoteAddress env s).2.2 := by
  by_cases h1 : s.addressType = ipv4
  · simp [constructRemoteAddress, h1, hc]
  · by_cases h2 : s.addressType = domainName
    · rcases hlk : env.lookupIP s.FQDN with - | ips
      · by_cases ho : s.conn_open = true <;>
          simp [constructRemoteAddress, h1, h2, hlk, closeConnectionWithError_eq, ho,
            domainName, ipv4, ipv6]
      · rcases ips with - | ⟨ip0, rest⟩
        · exact (hwf s.FQDN [] hlk rfl).elim
        · simp [constructRemoteAddress, h1, h2, hlk, hc, domainName, ipv4, ipv6]
    · by_cases h3 : s.addressType = ipv6
      · simp [constructRemoteAddress, h1, h2, h3, hc]
      · by_cases ho : s.conn_open = true <;>
          simp [constructRemoteAddress, h1, h2, h3, closeConnectionWithError_eq, ho, hc]

end Socks.SG

namespace Socks.SG

set_option maxHeartbeats 1000000 in
/-- Summary of `handleCommandConnect`: when the connection survives, the
dial succeeded — the payload is the non-empty succeeded reply, the reply
code is `succeeded`, no panic was recorded and an outbound connection is
held.  Otherwise the phase emitted exactly one failure frame while the
connection was open.  A panic-free exit means the dial succeeded, so an
outbound connection is held.  `command` is preserved and the relay is not
entered. -/
lemma handleCommandConnect_spec (env : Env) (s : State) (hwf : LookupWF env)
    (hc : s.crashed = none) :
    ((handleCommandConnect env s).2.1.conn_open = true →
      s.conn_open = true ∧ 0 < (handleCommandConnect env s).1.length ∧
      (handleCommandConnect env s).2.1.reply = succeeded ∧
      (handleCommandConnect env s).2.1.crashed = none ∧
      (handleCommandConnect env s).2.1.remote ≠ none) ∧
    frames (handleCommandConnect env s).2.2 =
      (if s.conn_open = true ∧ (handleCommandConnect env s).2.1.conn_open = false
        then 1 else 0) ∧
    (handleCommandConnect env s).2.1.command = s.command ∧
    Event.relayEntered ∉ (handleCommandConnect env s).2.2 ∧
    ((handleCommandConnect env s).2.1.crashed = none →
      (handleCommandConnect env s).2.1.remote ≠ none) := by
  obtain ⟨hmono, hfr, hrem, hcmd, hrel⟩ := constructRemoteAddress_spec env s hwf hc
  rcases hcr : (constructRemoteAddress env s).2.1.crashed with - | m
  · rcases hd : netDial env (constructRemoteAddress env s).1 with ⟨bip, bport⟩ | ⟨msg⟩
    · cases ho1 : (constructRemoteAddress env s).2.1.conn_open <;>
        cases ho0 : s.conn_open <;>
          simp_all [handleCommandConnect, generateSucceededReply, generateReply]
    · cases ho1 : (constructRemoteAddress env s).2.1.conn_open <;>
        cases ho0 : s.conn_open <;>
          (simp only [handleCommandConnect, hd, hcr]
           split_ifs <;> simp_all [closeConnectionWithError_eq])
  · cases ho1 : (constructRemoteAddress env s).2.1.conn_open <;>
      cases ho0 : s.conn_open <;> simp_all [handleCommandConnect]

set_option maxHeartbeats 1000000 in
/-- Summary of `handleRequestCommand`, combining the connect path with the
three command-not-supported paths. -/
lemma handleRequestCommand_spec (env : Env) (s : State) (hwf : LookupWF env)
    (hc : s.crashed = none) :
    ((handleRequestCommand env s).2.2.1.conn_open = true →
      s.conn_open = true ∧ 0 < (handleRequestCommand env s).1.length ∧
      (handleRequestCommand env s).2.2.1.reply = succeeded ∧
      (handleRequestCommand env s).2.2.1.crashed = none ∧
      (handleRequestCommand env s).2.2.1.remote ≠ none) ∧
    frames (handleRequestCommand env s).2.2.2 =
      (if s.conn_open = true ∧ (handleRequestCommand env s).2.2.1.conn_open = false
        then 1 else 0) ∧
    (handleRequestCommand env s).2.2.1.command = s.command ∧
    Event.relayEntered ∉ (handleRequestCommand env s).2.2.2 ∧
    (s.command = connect →
      (handleRequestCommand env s).2.2.1.crashed = none →
      (handleRequestCommand env s).2.2.1.remote ≠ none) ∧
    (s.command ≠ connect →
      (handleRequestCommand env s).2.2.1.reply = commandNotSupported ∧
      (handleRequestCommand env s).2.2.1.conn_open = false ∧
      (handleRequestCommand env s).2.2.1.crashed = none ∧
      (handleRequestCommand env s).1 = []) := by
  by_cases hcc : s.command = connect
  · have hspec := handleCommandConnect_spec env s hwf hc
    simp only [handleRequestCommand, if_pos hcc]
    tauto
  · by_cases h2 : s.command = bind <;> by_cases h3 : s.command = udpAssociate <;>
      cases ho : s.conn_open <;>
        simp_all [handleRequestCommand, closeConnectionWithError_eq,
          commandNotSupported, succeeded]

end Socks.SG

namespace Socks.SG

/-- `doReplyAction` does not change the session state. -/
lemma doReplyAction_state (env : Env) (s : State) : (doReplyAction env s).2.1 = s := by
  simp only [doReplyAction]; split_ifs <;> rfl

/-- `doReplyAction` enters the relay exactly when the command is connect and
the recorded reply is succeeded. -/
lemma doReplyAction_evs (env : Env) (s : State) :
    (doReplyAction env s).2.2 =
      if s.command = connect ∧ s.reply = succeeded then [Event.relayEntered] else [] := by
  simp only [doReplyAction]; split_ifs <;> simp_all

@[simp]
lemma frames_relay_ite (c : Prop) [Decidable c] :
    frames (if c then [Event.relayEntered] else []) = 0 := by
  split_ifs <;> simp

@[simp]
lemma relay_mem_ite (c : Prop) [Decidable c] :
    (Event.relayEntered ∈ if c then [Event.relayEntered] else []) ↔ c := by
  split_ifs <;> simp_all

@[simp]
lemma init_conn_open (input : List Nat) : (init input).conn_open = true := rfl

@[simp]
lemma init_crashed (input : List Nat) : (init input).crashed = none := rfl

@[simp]
lemma init_remote (input : List Nat) : (init input).remote = none := rfl

@[simp]
lemma closeConnection_command (s : State) : (closeConnection s).command = s.command := rfl

@[simp]
lemma closeConnection_reply (s : State) : (closeConnection s).reply = s.reply := rfl

@[simp]
lemma closeConnection_remote (s : State) : (closeConnection s).remote = s.remote := rfl

@[simp]
lemma closeConnection_crashed (s : State) : (closeConnection s).crashed = s.crashed := rfl

set_option maxHeartbeats 1000000 in
/-- Full-session summary of `server.go`'s `handle`: exactly one reply frame
reaches the client, the relay is entered only for a connect command with a
succeeded reply, and a session that ends without an outbound connection has
recorded a nil-dereference panic. -/
lemma handle_spec (env : Env) (input : List Nat) (hwf : LookupWF env) :
    frames (handle env input).2 = 1 ∧
    (Event.relayEntered ∈ (handle env input).2 →
      (handle env input).1.command = connect ∧ (handle env input).1.reply = succeeded) ∧
    ((handle env input).1.remote = none → (handle env input).1.crashed ≠ none) := by
  obtain ⟨gmono, gfr, grem, gcra, gcmd, grel⟩ := handleGreetings_spec (init input)
  obtain ⟨hmono, hfr, hrem, hcra, hrel⟩ :=
    handleRequestHeader_spec (handleGreetings (init input)).1
  have hCc : (handleRequestHeader (handleGreetings (init input)).1).1.crashed = none := by
    rw [hcra, gcra]; rfl
  obtain ⟨cmono, cfr, ccmd, crel, cconnrem, cnotc⟩ :=
    handleRequestCommand_spec env (handleRequestHeader (handleGreetings (init input)).1).1
      hwf hCc
  rcases hcr :
      (handleRequestCommand env
        (handleRequestHeader (handleGreetings (init input)).1).1).2.2.1.crashed with - | m
  · rcases hrm :
        (handleRequestCommand env
          (handleRequestHeader (handleGreetings (init input)).1).1).2.2.1.remote with - | pr
    · by_cases hcmdc :
          (handleRequestHeader (handleGreetings (init input)).1).1.command = connect
      · exact absurd hrm (cconnrem hcmdc hcr)
      · obtain ⟨crep, cclosed, -, cpay⟩ := cnotc hcmdc
        simp only [handle, hcr, doReplyAction_state, doReplyAction_evs, cpay]
        cases hg1 : (handleGreetings (init input)).1.conn_open <;>
          cases hh1 : (handleRequestHeader (handleGreetings (init input)).1).1.conn_open <;>
            simp_all [connWrite, succeeded, commandNotSupported, connect]
    · simp only [handle, hcr, doReplyAction_state, doReplyAction_evs, hrm]
      cases ho3 :
          (handleRequestCommand env
            (handleRequestHeader (handleGreetings (init input)).1).1).2.2.1.conn_open
      · cases hg1 : (handleGreetings (init input)).1.conn_open <;>
          cases hh1 : (handleRequestHeader (handleGreetings (init input)).1).1.conn_open <;>
            simp_all [connWrite]
      · obtain ⟨hopen2, hpay, crep, -, -⟩ := cmono ho3
        have hg1 : (handleGreetings (init input)).1.conn_open = true := hmono hopen2
        simp_all [connWrite, succeeded]
  · simp only [handle, hcr]
    cases hg1 : (handleGreetings (init input)).1.conn_open <;>
      cases hh1 : (handleRequestHeader (handleGreetings (init input)).1).1.conn_open <;>
        cases ho3 :
            (handleRequestCommand env
              (handleRequestHeader (handleGreetings (init input)).1).1).2.2.1.conn_open <;>
          simp_all

end Socks.SG

namespace Socks.P1

@[simp]
lemma init_conn_openP (input : List Nat) : (init input).conn_open = true := rfl

@[simp]
lemma init_remoteP (input : List Nat) : (init input).remote = none := rfl

@[simp]
lemma closeConnection_commandP (s : State) : (closeConnection s).command = s.command := by
  simp only [closeConnection]; split <;> rfl

@[simp]
lemma closeConnection_replyP (s : State) : (closeConnection s).reply = s.reply := by
  simp only [closeConnection]; split <;> rfl

@[simp]
lemma closeConnection_remoteP (s : State) : (closeConnection s).remote = s.remote := by
  simp only [closeConnection]; split <;> rfl

/-- `doReplyAction` does not change the session state. -/
lemma doReplyAction_stateP (env : Env) (s : State) : (doReplyAction env s).2.1 = s := by
  simp only [doReplyAction]; split_ifs <;> rfl

/-- `doReplyAction` enters the relay exactly when the command is connect and
the recorded reply is succeeded. -/
lemma doReplyAction_evsP (env : Env) (s : State) :
    (doReplyAction env s).2.2 =
      if s.command = connect ∧ s.reply = succeeded then [Event.relayEntered] else [] := by
  simp only [doReplyAction]; split_ifs <;> simp_all

/-- Summary of the `part_001` `handleGreetings`: no error means the
connection stayed open and nothing but the method-selection reply was
written; an error means the connection was closed with exactly one failure
frame. -/
lemma handleGreetings_specP (s : State) (ho : s.conn_open = true) :
    ((handleGreetings s).2.2 = none →
      (handleGreetings s).1.conn_open = true ∧ frames (handleGreetings s).2.1 = 0) ∧
    ((handleGreetings s).2.2 ≠ none →
      (handleGreetings s).1.conn_open = false ∧ frames (handleGreetings s).2.1 = 1) ∧
    (handleGreetings s).1.remote = s.remote ∧
    (handleGreetings s).1.command = s.command ∧
    Event.relayEntered ∉ (handleGreetings s).2.1 := by
  by_cases hn : 1 ≤ (read1 (read1 s).2).1 ∧ (read1 (read1 s).2).1 ≤ 255 <;>
    simp [handleGreetings, ensureNMethod, getAvailableMethods,
      closeConnectionWithError_eqP, hn, ho]

set_option maxHeartbeats 1000000 in
/-- Summary of the `part_001` `handleRequestHeader` in the same shape. -/
lemma handleRequestHeader_specP (s : State) (ho : s.conn_open = true) :
    ((handleRequestHeader s).2.2 = none →
      (handleRequestHeader s).1.conn_open = true ∧ frames (handleRequestHeader s).2.1 = 0) ∧
    ((handleRequestHeader s).2.2 ≠ none →
      (handleRequestHeader s).1.conn_open = false ∧ frames (handleRequestHeader s).2.1 = 1) ∧
    (handleRequestHeader s).1.remote = s.remote ∧
    Event.relayEntered ∉ (handleRequestHeader s).2.1 := by
  by_cases hv : (read1 s).1 = socksVersion <;>
    by_cases h4a : (read1 (read1 (read1 (read1 s).2).2).2).1 = ipv4 <;>
      by_cases h4b : (read1 (read1 (read1 (read1 s).2).2).2).1 = domainName <;>
        by_cases h4c : (read1 (read1 (read1 (read1 s).2).2).2).1 = ipv6 <;>
          simp_all [handleRequestHeader, ensureVersion, parseAddress, parsePort,
            closeConnectionWithError_eqP, ho, ipv4, domainName, ipv6]

end Socks.P1

namespace Socks.P1

/-- Summary of the `part_001` `constructRemoteAddress` (entered with an open
connection): either the connection stays open with no frame, or it was
closed with exactly one failure frame; `remote` and `command` are
preserved. -/
lemma constructRemoteAddress_specP (env : Env) (s : State) (ho : s.conn_open = true) :
    frames (constructRemoteAddress env s).2.2 =
      (if (constructRemoteAddress env s).2.1.conn_open = false then 1 else 0) ∧
    (constructRemoteAddress env s).2.1.remote = s.remote ∧
    (constructRemoteAddress env s).2.1.command = s.command ∧
    Event.relayEntered ∉ (constructRemoteAddress env s).2.2 := by
  by_cases h1 : s.addressType = ipv4
  · simp [constructRemoteAddress, h1, ho]
  · by_cases h2 : s.addressType = domainName
    · rcases hlk : env.lookupIP s.FQDN with - | ips
      · simp [constructRemoteAddress, h1, h2, hlk, closeConnectionWithError_eqP, ho,
          domainName, ipv4, ipv6]
      · rcases ips with - | ⟨ip0, rest⟩
        · simp [constructRemoteAddress, h1, h2, hlk, closeConnectionWithError_eqP, ho,
            domainName, ipv4, ipv6]
        · simp [constructRemoteAddress, h1, h2, hlk, ho, domainName, ipv4, ipv6]
    · by_cases h3 : s.addressType = ipv6
      · simp [constructRemoteAddress, h1, h2, h3, ho]
      · simp [constructRemoteAddress, h1, h2, h3, closeConnectionWithError_eqP, ho]

set_option maxHeartbeats 1000000 in
/-- Summary of the `part_001` `handleCommandConnect` (entered with an open
connection): no error means the dial succeeded, the connection stayed open,
the payload is the non-empty succeeded reply and the command was connect;
an error means the connection was closed with exactly one failure frame. -/
lemma handleCommandConnect_specP (env : Env) (s : State) (ho : s.conn_open = true) :
    ((handleCommandConnect env s).2.2.2 = none →
      (handleCommandConnect env s).2.1.conn_open = true ∧
      frames (handleCommandConnect env s).2.2.1 = 0 ∧
      0 < (handleCommandConnect env s).1.length ∧
      (handleCommandConnect env s).2.1.reply = succeeded ∧
      (handleCommandConnect env s).2.1.remote ≠ none ∧
      (handleCommandConnect env s).2.1.command = s.command) ∧
    ((handleCommandConnect env s).2.2.2 ≠ none →
      (handleCommandConnect env s).2.1.conn_open = false ∧
      frames (handleCommandConnect env s).2.2.1 = 1) ∧
    Event.relayEntered ∉ (handleCommandConnect env s).2.2.1 := by
  obtain ⟨cfr, crem, ccmd, crel⟩ := constructRemoteAddress_specP env s ho
  cases ho1 : (constructRemoteAddress env s).2.1.conn_open
  · simp_all [handleCommandConnect]
  · rcases hd : netDial env (constructRemoteAddress env s).1 with ⟨bip, bport⟩ | ⟨msg⟩
    · simp_all [handleCommandConnect, generateSucceededReply, generateReply]
    · simp only [handleCommandConnect, hd, ho1]
      split_ifs <;> simp_all [closeConnectionWithError_eqP]

set_option maxHeartbeats 1000000 in
/-- Summary of the `part_001` `handleRequestCommand`. -/
lemma handleRequestCommand_specP (env : Env) (s : State) (ho : s.conn_open = true) :
    ((handleRequestCommand env s).2.2.2 = none →
      (handleRequestCommand env s).2.1.conn_open = true ∧
      frames (handleRequestCommand env s).2.2.1 = 0 ∧
      0 < (handleRequestCommand env s).1.length ∧
      (handleRequestCommand env s).2.1.reply = succeeded ∧
      (handleRequestCommand env s).2.1.remote ≠ none ∧
      (handleRequestCommand env s).2.1.command = connect) ∧
    ((handleRequestCommand env s).2.2.2 ≠ none →
      (handleRequestCommand env s).2.1.conn_open = false ∧
      frames (handleRequestCommand env s).2.2.1 = 1) ∧
    Event.relayEntered ∉ (handleRequestCommand env s).2.2.1 := by
  by_cases hcc : s.command = connect
  · have hspec := handleCommandConnect_specP env s ho
    rw [hcc] at hspec
    simp only [handleRequestCommand, if_pos hcc]
    tauto
  · by_cases h2 : s.command = bind <;> by_cases h3 : s.command = udpAssociate <;>
      simp_all [handleRequestCommand, closeConnectionWithError_eqP, ho]

end Socks.P1

namespace Socks.P1

set_option maxHeartbeats 1000000 in
/-- Full-session summary of the `part_001` `handle`: exactly one reply frame
reaches the client, and the relay is entered only for a connect command with
a succeeded reply. -/
lemma handle_specP (env : Env) (input : List Nat) :
    frames (handle env input).2 = 1 ∧
    (Event.relayEntered ∈ (handle env input).2 →
      (handle env input).1.command = connect ∧ (handle env input).1.reply = succeeded) := by
  obtain ⟨gok, gerr, grem, gcmd, grel⟩ := handleGreetings_specP (init input) rfl
  rcases hge : (handleGreetings (init input)).2.2 with - | m
  · obtain ⟨hg1, hgf⟩ := gok hge
    obtain ⟨hok, herr, hrem, hrel⟩ := handleRequestHeader_specP (handleGreetings (init input)).1 hg1
    rcases hhe : (handleRequestHeader (handleGreetings (init input)).1).2.2 with - | m
    · obtain ⟨hh1, hhf⟩ := hok hhe
      obtain ⟨cok, cerr, crel⟩ :=
        handleRequestCommand_specP env (handleRequestHeader (handleGreetings (init input)).1).1 hh1
      rcases hce : (handleRequestCommand env
          (handleRequestHeader (handleGreetings (init input)).1).1).2.2.2 with - | m
      · obtain ⟨hc1, hcf, hpay, hrep, -, hcmd⟩ := cok hce
        simp only [handle, hge, hhe, hce, doReplyAction_stateP, doReplyAction_evsP]
        simp_all [connWrite, succeeded]
      · obtain ⟨hc1, hcf⟩ := cerr (by simp [hce])
        simp only [handle, hge, hhe, hce]
        simp_all
    · obtain ⟨hh1, hhf⟩ := herr (by simp [hhe])
      simp only [handle, hge, hhe]
      simp_all
  · obtain ⟨hg1, hgf⟩ := gerr (by simp [hge])
    simp only [handle, hge]
    simp_all

end Socks.P1

namespace Socks

/-- A formatted `host:port` dial target is never the empty string. -/
lemma format_addr_ne_empty (a b : String) : a ++ ":" ++ b ≠ "" := by
  intro h
  have hl := congrArg String.length h
  simp [String.length_append] at hl
  exact absurd hl.1.2 (by decide)

end Socks

namespace Socks

/-- Reply code that the specification's classification rule assigns to a
dial error message (claim C5's mapping, stated from the spec's words). -/
def dialErrorReply (msg : String) : Nat :=
  if strContains msg "network is unreachable" then networkUnreachable
  else if strContains msg "refused" then connectionRefused
  else hostUnreachable

/-- Address-type tag matching an IP address's family (the spec's phrase
"matching the address family of that first result" in claim C6). -/
def addressFamilyType (ip : List Nat) : Nat :=
  if ip.length = 4 then ipv4 else ipv6

/-- Environment whose dial always succeeds, bound to 127.0.0.1:4321, and
whose lookups always fail. -/
def envDialOk : Env :=
  { lookupIP := fun _ => none, dial := fun _ => DialResult.ok [127, 0, 0, 1] 4321
    exchangeErr := none }

/-- Environment whose dial always fails with a "connection refused" error. -/
def envRefused : Env :=
  { lookupIP := fun _ => none, dial := fun _ => DialResult.err "connect: connection refused"
    exchangeErr := none }

/-- Environment whose lookups resolve every hostname to the single IPv6
address ::1. -/
def envV6 : Env :=
  { lookupIP := fun _ => some [[0, 0, 0, 0, 0, 0, 0, 0, 0, 0, 0, 0, 0, 0, 0, 1]]
    dial := fun _ => DialResult.err "x", exchangeErr := none }

/-- Claim C10: session close is idempotent — closing an already-closed (or,
in the `part_001` variant, never-opened/nil) connection is a no-op, so
closing twice equals closing once, in both variants. -/
theorem claim_C10_close_idempotent (s : SG.State) (t : P1.State) :
    SG.closeConnection (SG.closeConnection s) = SG.closeConnection s ∧
    P1.closeConnection (P1.closeConnection t) = P1.closeConnection t ∧
    (t.conn_open = false → P1.closeConnection t = t) := by
  refine ⟨rfl, ?_, ?_⟩
  · by_cases h : t.conn_open = false <;> simp [P1.closeConnection, h]
  · intro h; simp [P1.closeConnection, h]

/-- Witness for claim C10 at a concrete closed session. -/
theorem claim_C10_close_idempotent_witness :
    P1.closeConnection { P1.init [] with conn_open := false } =
      { P1.init [] with conn_open := false } :=
  (claim_C10_close_idempotent (SG.init []) { P1.init [] with conn_open := false }).2.2 rfl

/-- Counterexample for claim C3: in the `part_001` variant the greeting
version check is commented out, so the greeting `[4, 1, 0]` (version 4) is
accepted — no error, the session stays open, and the method-selection reply
is still sent. -/
theorem claim_C3_counterexample :
    (P1.handleGreetings (P1.init [4, 1, 0])).2.2 = none ∧
    (P1.handleGreetings (P1.init [4, 1, 0])).1.conn_open = true ∧
    frames (P1.handleGreetings (P1.init [4, 1, 0])).2.1 = 0 ∧
    (P1.handleGreetings (P1.init [4, 1, 0])).2.1 = [Event.methodSelection [5, 0]] := by
  decide

/-- Claim C3 (amended): in the `server.go` variant a greeting whose version
byte is not 5 closes the session, with the general-failure frame as the only
bytes written; in the `part_001` variant the commented-out check lets any
version byte through — with a valid method count the handshake continues
with no error and no failure frame. -/
theorem claim_C3_amended_version_check (b n : Nat) (rest : List Nat)
    (hb : b % 256 ≠ socksVersion) :
    ((SG.handleGreetings (SG.init (b :: n :: rest))).1.conn_open = false ∧
      (SG.handleGreetings (SG.init (b :: n :: rest))).2 =
        [Event.replyFrame [socksVersion, generalFailure, 0, 0, 0, 0, 0]]) ∧
    (1 ≤ n % 256 →
      (P1.handleGreetings (P1.init (b :: n :: rest))).2.2 = none ∧
      (P1.handleGreetings (P1.init (b :: n :: rest))).1.conn_open = true ∧
      frames (P1.handleGreetings (P1.init (b :: n :: rest))).2.1 = 0) := by
  have h255 : n % 256 ≤ 255 := by
    have := Nat.mod_lt n (show 0 < 256 by decide)
    omega
  constructor
  · by_cases hn : 1 ≤ n % 256 ∧ n % 256 ≤ 255 <;>
      simp [SG.handleGreetings, SG.read1, SG.init, SG.ensureVersion, SG.ensureNMethod,
        SG.getAvailableMethods, SG.closeConnectionWithError_eq, SG.connWrite, hb, hn,
        generalFailure]
  · intro hn
    simp [P1.handleGreetings, P1.read1, P1.init, P1.ensureNMethod,
      P1.getAvailableMethods, P1.closeConnectionWithError_eqP, hn, h255]

/-- Witness for the amended claim C3 at version byte 4. -/
theorem claim_C3_amended_version_check_witness :
    ((SG.handleGreetings (SG.init [4, 1, 0])).1.conn_open = false ∧
      (SG.handleGreetings (SG.init [4, 1, 0])).2 =
        [Event.replyFrame [socksVersion, generalFailure, 0, 0, 0, 0, 0]]) ∧
    (1 ≤ 1 % 256 →
      (P1.handleGreetings (P1.init [4, 1, 0])).2.2 = none ∧
      (P1.handleGreetings (P1.init [4, 1, 0])).1.conn_open = true ∧
      frames (P1.handleGreetings (P1.init [4, 1, 0])).2.1 = 0) :=
  claim_C3_amended_version_check 4 1 [0] (by decide)

/-- Counterexample for claim C4: the failure frame's address-type byte is
the session's current address type (0 right after accept, not ipv4 = 0x01),
and the `server.go` variant emits a single zero address byte instead of the
four bytes of 0.0.0.0 — so neither variant produces the claimed frame
`[5, code, 0, 0x01, 0, 0, 0, 0, 0, 0]`. -/
theorem claim_C4_counterexample :
    (SG.closeConnectionWithError generalFailure (SG.init [])).2 =
      [Event.replyFrame [5, 1, 0, 0, 0, 0, 0]] ∧
    ([5, 1, 0, 0, 0, 0, 0] : List Nat) ≠
      [socksVersion, generalFailure, 0, ipv4, 0, 0, 0, 0, 0, 0] ∧
    (P1.closeConnectionWithError generalFailure (P1.init [])).2 =
      [Event.replyFrame [5, 1, 0, 0, 0, 0, 0, 0, 0, 0]] ∧
    ([5, 1, 0, 0, 0, 0, 0, 0, 0, 0] : List Nat) ≠
      [socksVersion, generalFailure, 0, ipv4, 0, 0, 0, 0, 0, 0] := by
  decide

/-- Claim C4 (amended): on every failure path with the connection still
open, the reply frame is version 5, the failure code, reserved 0, and the
session's *current* address-type byte; the `part_001` variant then appends
the four address bytes 0.0.0.0 and two zero port bytes, while the
`server.go` variant appends a single zero address byte and two zero port
bytes. -/
theorem claim_C4_amended_failure_frame (e : Nat) (s : SG.State) (t : P1.State)
    (hs : s.conn_open = true) (ht : t.conn_open = true) :
    (SG.closeConnectionWithError e s).2 =
      [Event.replyFrame [socksVersion, e % 256, 0, s.addressType % 256, 0, 0, 0]] ∧
    (P1.closeConnectionWithError e t).2 =
      [Event.replyFrame
        [socksVersion, e % 256, 0, t.addressType % 256, 0, 0, 0, 0, 0, 0]] := by
  simp [SG.closeConnectionWithError_eq, P1.closeConnectionWithError_eqP, hs, ht]

/-- Witness for the amended claim C4 at fresh sessions. -/
theorem claim_C4_amended_failure_frame_witness :
    (SG.closeConnectionWithError hostUnreachable (SG.init [])).2 =
      [Event.replyFrame [socksVersion, hostUnreachable % 256, 0,
        (SG.init []).addressType % 256, 0, 0, 0]] ∧
    (P1.closeConnectionWithError hostUnreachable (P1.init [])).2 =
      [Event.replyFrame [socksVersion, hostUnreachable % 256, 0,
        (P1.init []).addressType % 256, 0, 0, 0, 0, 0, 0]] :=
  claim_C4_amended_failure_frame hostUnreachable (SG.init []) (P1.init []) rfl rfl

end Socks

namespace Socks

/-- Claim C8: every greeting with version 5 and a method count between 1 and
255 succeeds in both variants, and the server's greeting reply is exactly
the two bytes 05 00, regardless of the offered methods. -/
theorem claim_C8_greeting_reply (n : Nat) (rest : List Nat) (hn : 1 ≤ n % 256) :
    (SG.handleGreetings (SG.init (socksVersion :: n :: rest))).1.conn_open = true ∧
    (SG.handleGreetings (SG.init (socksVersion :: n :: rest))).2 =
      [Event.methodSelection [socksVersion, noAuth]] ∧
    (P1.handleGreetings (P1.init (socksVersion :: n :: rest))).2.2 = none ∧
    (P1.handleGreetings (P1.init (socksVersion :: n :: rest))).1.conn_open = true ∧
    (P1.handleGreetings (P1.init (socksVersion :: n :: rest))).2.1 =
      [Event.methodSelection [socksVersion, noAuth]] := by
  have h255 : n % 256 ≤ 255 := by
    have := Nat.mod_lt n (show 0 < 256 by decide)
    omega
  refine ⟨?_, ?_, ?_, ?_, ?_⟩ <;>
    simp [SG.handleGreetings, SG.read1, SG.init, SG.ensureVersion, SG.ensureNMethod,
      SG.getAvailableMethods, SG.connWrite, P1.handleGreetings, P1.read1, P1.init,
      P1.ensureNMethod, P1.getAvailableMethods, hn, h255, socksVersion]

/-- Witness for claim C8: a client offering one method, no-auth. -/
theorem claim_C8_greeting_reply_witness :
    (SG.handleGreetings (SG.init (socksVersion :: 1 :: [0]))).1.conn_open = true ∧
    (SG.handleGreetings (SG.init (socksVersion :: 1 :: [0]))).2 =
      [Event.methodSelection [socksVersion, noAuth]] ∧
    (P1.handleGreetings (P1.init (socksVersion :: 1 :: [0]))).2.2 = none ∧
    (P1.handleGreetings (P1.init (socksVersion :: 1 :: [0]))).1.conn_open = true ∧
    (P1.handleGreetings (P1.init (socksVersion :: 1 :: [0]))).2.1 =
      [Event.methodSelection [socksVersion, noAuth]] :=
  claim_C8_greeting_reply 1 [0] (by decide)

/-- Claim C9: in both variants, any request command other than connect
(bind, udp-associate or unknown) makes the session reply
command-not-supported (0x07), close, and return the unsupported-command
error, without ever attempting an outbound dial. -/
theorem claim_C9_unsupported_commands (env : Env) (s : SG.State) (t : P1.State)
    (hs : s.conn_open = true) (hsc : s.command ≠ connect)
    (ht : t.conn_open = true) (htc : t.command ≠ connect) :
    ((SG.handleRequestCommand env s).1 = [] ∧
      (SG.handleRequestCommand env s).2.1 = true ∧
      (SG.handleRequestCommand env s).2.2.1.conn_open = false ∧
      (SG.handleRequestCommand env s).2.2.1.reply = commandNotSupported ∧
      (SG.handleRequestCommand env s).2.2.2 =
        [Event.replyFrame
          [socksVersion, commandNotSupported, 0, s.addressType % 256, 0, 0, 0]] ∧
      ∀ a, Event.dialAttempt a ∉ (SG.handleRequestCommand env s).2.2.2) ∧
    ((P1.handleRequestCommand env t).1 = [] ∧
      (P1.handleRequestCommand env t).2.2.2 = some "Unsupported command" ∧
      (P1.handleRequestCommand env t).2.1.conn_open = false ∧
      (P1.handleRequestCommand env t).2.1.reply = commandNotSupported ∧
      (P1.handleRequestCommand env t).2.2.1 =
        [Event.replyFrame
          [socksVersion, commandNotSupported, 0, t.addressType % 256, 0, 0, 0, 0, 0, 0]] ∧
      ∀ a, Event.dialAttempt a ∉ (P1.handleRequestCommand env t).2.2.1) := by
  constructor
  · by_cases h2 : s.command = bind <;> by_cases h3 : s.command = udpAssociate <;>
      simp_all [SG.handleRequestCommand, SG.closeConnectionWithError_eq,
        commandNotSupported, bind, udpAssociate, connect]
  · by_cases h2 : t.command = bind <;> by_cases h3 : t.command = udpAssociate <;>
      simp_all [P1.handleRequestCommand, P1.closeConnectionWithError_eqP,
        commandNotSupported, bind, udpAssociate, connect]

/-- Witness for claim C9: the bind command (0x02). -/
theorem claim_C9_unsupported_commands_witness :
    ((SG.handleRequestCommand envRefused { SG.init [] with command := bind }).1 = [] ∧
      (SG.handleRequestCommand envRefused { SG.init [] with command := bind }).2.1 = true ∧
      (SG.handleRequestCommand envRefused
          { SG.init [] with command := bind }).2.2.1.conn_open = false ∧
      (SG.handleRequestCommand envRefused
          { SG.init [] with command := bind }).2.2.1.reply = commandNotSupported ∧
      (SG.handleRequestCommand envRefused { SG.init [] with command := bind }).2.2.2 =
        [Event.replyFrame
          [socksVersion, commandNotSupported, 0,
            ({ SG.init [] with command := bind } : SG.State).addressType % 256, 0, 0, 0]] ∧
      ∀ a, Event.dialAttempt a ∉
        (SG.handleRequestCommand envRefused { SG.init [] with command := bind }).2.2.2) ∧
    ((P1.handleRequestCommand envRefused { P1.init [] with command := bind }).1 = [] ∧
      (P1.handleRequestCommand envRefused
          { P1.init [] with command := bind }).2.2.2 = some "Unsupported command" ∧
      (P1.handleRequestCommand envRefused
          { P1.init [] with command := bind }).2.1.conn_open = false ∧
      (P1.handleRequestCommand envRefused
          { P1.init [] with command := bind }).2.1.reply = commandNotSupported ∧
      (P1.handleRequestCommand envRefused { P1.init [] with command := bind }).2.2.1 =
        [Event.replyFrame
          [socksVersion, commandNotSupported, 0,
            ({ P1.init [] with command := bind } : P1.State).addressType % 256,
            0, 0, 0, 0, 0, 0]] ∧
      ∀ a, Event.dialAttempt a ∉
        (P1.handleRequestCommand envRefused { P1.init [] with command := bind }).2.2.1) :=
  claim_C9_unsupported_commands envRefused { SG.init [] with command := bind }
    { P1.init [] with command := bind } rfl (by decide) rfl (by decide)

end Socks

namespace Socks

set_option maxHeartbeats 1000000 in
/-- Claim C5: in both variants, a dial error is classified purely by its
message text — "network is unreachable" yields network-unreachable (0x03),
otherwise "refused" yields connection-refused (0x05), otherwise
host-unreachable (0x04) — and that code is both recorded in the session and
sent as the failure frame's reply byte. -/
theorem claim_C5_dial_error_classification (env : Env) (s : SG.State) (t : P1.State)
    (msg : String)
    (hs : s.conn_open = true) (hcr : s.crashed = none) (hsa : s.addressType = ipv4)
    (hsd : env.dial (ipString s.IP ++ ":" ++ toString s.dstPort) = DialResult.err msg)
    (ht : t.conn_open = true) (hta : t.addressType = ipv4)
    (htd : env.dial (P1.addrString t.IP ++ ":" ++ toString t.dstPort) = DialResult.err msg) :
    ((SG.handleCommandConnect env s).2.1.reply = dialErrorReply msg ∧
      (SG.handleCommandConnect env s).2.1.conn_open = false ∧
      (SG.handleCommandConnect env s).2.2 =
        [Event.dialAttempt (ipString s.IP ++ ":" ++ toString s.dstPort),
          Event.replyFrame [socksVersion, dialErrorReply msg, 0, ipv4, 0, 0, 0]]) ∧
    ((P1.handleCommandConnect env t).2.1.reply = dialErrorReply msg ∧
      (P1.handleCommandConnect env t).2.1.conn_open = false ∧
      (P1.handleCommandConnect env t).2.2.2 ≠ none ∧
      (P1.handleCommandConnect env t).2.2.1 =
        [Event.dialAttempt (P1.addrString t.IP ++ ":" ++ toString t.dstPort),
          Event.replyFrame [socksVersion, dialErrorReply msg, 0, ipv4, 0, 0, 0, 0, 0, 0]]) := by
  have hne1 := format_addr_ne_empty (ipString s.IP) (toString s.dstPort)
  have hne2 := format_addr_ne_empty (P1.addrString t.IP) (toString t.dstPort)
  constructor
  · by_cases hm1 : strContains msg "network is unreachable" = true <;>
      by_cases hm2 : strContains msg "refused" = true <;>
        simp [SG.handleCommandConnect, SG.constructRemoteAddress, hsa, hcr, netDial,
          hne1, hsd, SG.closeConnectionWithError_eq, hs, dialErrorReply, hm1, hm2,
          ipv4, networkUnreachable, connectionRefused, hostUnreachable]
  · by_cases hm1 : strContains msg "network is unreachable" = true <;>
      by_cases hm2 : strContains msg "refused" = true <;>
        simp [P1.handleCommandConnect, P1.constructRemoteAddress, hta, netDial,
          hne2, htd, P1.closeConnectionWithError_eqP, ht, dialErrorReply, hm1, hm2,
          ipv4, networkUnreachable, connectionRefused, hostUnreachable]

/-- Witness for claim C5: a "connection refused" dial error against a fresh
ipv4 session, classified as connection-refused (0x05). -/
theorem claim_C5_dial_error_classification_witness :
    (((SG.handleCommandConnect envRefused
          { SG.init [] with addressType := ipv4, IP := [1, 2, 3, 4] }).2.1.reply =
        dialErrorReply "connect: connection refused" ∧
      (SG.handleCommandConnect envRefused
          { SG.init [] with addressType := ipv4, IP := [1, 2, 3, 4] }).2.1.conn_open = false ∧
      (SG.handleCommandConnect envRefused
          { SG.init [] with addressType := ipv4, IP := [1, 2, 3, 4] }).2.2 =
        [Event.dialAttempt (ipString [1, 2, 3, 4] ++ ":" ++ toString 0),
          Event.replyFrame
            [socksVersion, dialErrorReply "connect: connection refused", 0, ipv4, 0, 0, 0]]) ∧
    ((P1.handleCommandConnect envRefused
          { P1.init [] with addressType := ipv4, IP := some [1, 2, 3, 4] }).2.1.reply =
        dialErrorReply "connect: connection refused" ∧
      (P1.handleCommandConnect envRefused
          { P1.init [] with addressType := ipv4, IP := some [1, 2, 3, 4] }).2.1.conn_open
        = false ∧
      (P1.handleCommandConnect envRefused
          { P1.init [] with addressType := ipv4, IP := some [1, 2, 3, 4] }).2.2.2 ≠ none ∧
      (P1.handleCommandConnect envRefused
          { P1.init [] with addressType := ipv4, IP := some [1, 2, 3, 4] }).2.2.1 =
        [Event.dialAttempt (P1.addrString (some [1, 2, 3, 4]) ++ ":" ++ toString 0),
          Event.replyFrame
            [socksVersion, dialErrorReply "connect: connection refused", 0, ipv4,
              0, 0, 0, 0, 0, 0]])) ∧
    dialErrorReply "connect: connection refused" = connectionRefused :=
  ⟨claim_C5_dial_error_classification envRefused
      { SG.init [] with addressType := ipv4, IP := [1, 2, 3, 4] }
      { P1.init [] with addressType := ipv4, IP := some [1, 2, 3, 4] }
      "connect: connection refused" rfl rfl rfl rfl rfl rfl rfl,
    by decide⟩

end Socks

namespace Socks

/-- Counterexample for claim C6: with a resolver whose first (and only)
result is the IPv6 address ::1, `constructRemoteAddress` still sets the
session's address type to ipv4 (0x01) — not to ipv6 matching the address
family of the first result. -/
theorem claim_C6_counterexample :
    (P1.constructRemoteAddress envV6
        { P1.init [] with addressType := domainName, FQDN := "h" }).2.1.addressType
      = ipv4 ∧
    addressFamilyType [0, 0, 0, 0, 0, 0, 0, 0, 0, 0, 0, 0, 0, 0, 0, 1] = ipv6 ∧
    (SG.constructRemoteAddress envV6
        { SG.init [] with addressType := domainName, FQDN := "h" }).2.1.addressType
      = ipv4 ∧
    ipv4 ≠ ipv6 := by
  decide

set_option maxHeartbeats 1000000 in
/-- Claim C6 (amended): for a domain-name request whose lookup returns at
least one address, both variants dial "firstResult:port" built from exactly
the first element, and then set the session's address type to ipv4
unconditionally — regardless of the first result's address family.  On a
lookup error both variants close with a general-failure reply (after which
the `server.go` variant panics indexing the nil result slice); on an empty
result list the `part_001` variant closes with a general-failure reply
while the `server.go` variant panics without writing any reply. -/
theorem claim_C6_amended_domain_resolution :
    (∀ env (s : SG.State) ip0 rest, s.addressType = domainName →
      env.lookupIP s.FQDN = some (ip0 :: rest) →
      SG.constructRemoteAddress env s =
        (ipString ip0 ++ ":" ++ toString s.dstPort, { s with addressType := ipv4 }, [])) ∧
    (∀ env (t : P1.State) ip0 rest, t.addressType = domainName →
      env.lookupIP t.FQDN = some (ip0 :: rest) →
      P1.constructRemoteAddress env t =
        (ipString ip0 ++ ":" ++ toString t.dstPort, { t with addressType := ipv4 }, [])) ∧
    (∀ env (s : SG.State), s.conn_open = true → s.addressType = domainName →
      env.lookupIP s.FQDN = none →
      (SG.constructRemoteAddress env s).2.1.conn_open = false ∧
      (SG.constructRemoteAddress env s).2.1.reply = generalFailure ∧
      (SG.constructRemoteAddress env s).2.2 =
        [Event.replyFrame [socksVersion, generalFailure, 0, domainName, 0, 0, 0]] ∧
      (SG.constructRemoteAddress env s).2.1.crashed ≠ none) ∧
    (∀ env (t : P1.State), t.conn_open = true → t.addressType = domainName →
      (env.lookupIP t.FQDN = none ∨ env.lookupIP t.FQDN = some []) →
      (P1.constructRemoteAddress env t).2.1.conn_open = false ∧
      (P1.constructRemoteAddress env t).2.1.reply = generalFailure ∧
      (P1.constructRemoteAddress env t).2.2 =
        [Event.replyFrame
          [socksVersion, generalFailure, 0, domainName, 0, 0, 0, 0, 0, 0]]) ∧
    (∀ env (s : SG.State), s.addressType = domainName →
      env.lookupIP s.FQDN = some [] →
      (SG.constructRemoteAddress env s).2.1.crashed ≠ none ∧
      (SG.constructRemoteAddress env s).2.2 = []) := by
  refine ⟨?_, ?_, ?_, ?_, ?_⟩
  · intro env s ip0 rest ha hlk
    simp [SG.constructRemoteAddress, ha, hlk, domainName, ipv4, ipv6]
  · intro env t ip0 rest ha hlk
    simp [P1.constructRemoteAddress, ha, hlk, domainName, ipv4, ipv6]
  · intro env s ho ha hlk
    simp [SG.constructRemoteAddress, ha, hlk, SG.closeConnectionWithError_eq, ho,
      domainName, ipv4, ipv6, generalFailure]
  · intro env t ho ha hlk
    rcases hlk with hlk | hlk <;>
      simp [P1.constructRemoteAddress, ha, hlk, P1.closeConnectionWithError_eqP, ho,
        domainName, ipv4, ipv6, generalFailure]
  · intro env s ha hlk
    simp [SG.constructRemoteAddress, ha, hlk, domainName, ipv4, ipv6]

/-- Witness for the amended claim C6: resolving through `envV6` (first
result ::1) dials "[first result]:port" and normalizes the address type to
ipv4; a failing lookup closes with general failure. -/
theorem claim_C6_amended_domain_resolution_witness :
    SG.constructRemoteAddress envV6
        { SG.init [] with addressType := domainName, FQDN := "h" } =
      (ipString [0, 0, 0, 0, 0, 0, 0, 0, 0, 0, 0, 0, 0, 0, 0, 1] ++ ":" ++ toString 0,
        { ({ SG.init [] with addressType := domainName, FQDN := "h" } : SG.State) with
            addressType := ipv4 }, []) ∧
    ((P1.constructRemoteAddress envRefused
        { P1.init [] with addressType := domainName, FQDN := "h" }).2.1.conn_open = false ∧
      (P1.constructRemoteAddress envRefused
        { P1.init [] with addressType := domainName, FQDN := "h" }).2.1.reply
          = generalFailure ∧
      (P1.constructRemoteAddress envRefused
        { P1.init [] with addressType := domainName, FQDN := "h" }).2.2 =
        [Event.replyFrame
          [socksVersion, generalFailure, 0, domainName, 0, 0, 0, 0, 0, 0]]) :=
  ⟨claim_C6_amended_domain_resolution.1 envV6
      { SG.init [] with addressType := domainName, FQDN := "h" }
      [0, 0, 0, 0, 0, 0, 0, 0, 0, 0, 0, 0, 0, 0, 0, 1] [] rfl rfl,
    claim_C6_amended_domain_resolution.2.2.2.1 envRefused
      { P1.init [] with addressType := domainName, FQDN := "h" } rfl rfl (Or.inl rfl)⟩

end Socks

namespace Socks

/-- Claim C7: in the `server.go` variant the no-outbound-connection error
branch is not terminal — any session that ends with `remote = nil` has
recorded a nil dereference (the `remote.RemoteAddr()` call placed before
the nil-guard in `handle`), and the dial-failure branch of
`handleCommandConnect` falls through to `remote.LocalAddr()` on the nil
connection. -/
theorem claim_C7_nil_dereferences :
    (∀ env input, LookupWF env →
      (SG.handle env input).1.remote = none →
      (SG.handle env input).1.crashed ≠ none) ∧
    (∀ env (s : SG.State) msg, s.conn_open = true → s.crashed = none →
      s.addressType = ipv4 →
      env.dial (ipString s.IP ++ ":" ++ toString s.dstPort) = DialResult.err msg →
      (SG.handleCommandConnect env s).2.1.crashed =
        some "handleCommandConnect: remote.LocalAddr on nil remote") := by
  constructor
  · intro env input hwf
    exact (SG.handle_spec env input hwf).2.2
  · intro env s msg hs hcr hsa hsd
    have hne := format_addr_ne_empty (ipString s.IP) (toString s.dstPort)
    by_cases hm1 : strContains msg "network is unreachable" = true <;>
      by_cases hm2 : strContains msg "refused" = true <;>
        simp [SG.handleCommandConnect, SG.constructRemoteAddress, hsa, hcr, netDial,
          hne, hsd, SG.closeConnectionWithError_eq, hm1, hm2, ipv4]

/-- Witness for claim C7: a bind request leaves `remote = nil` and `handle`
records the `RemoteAddr` nil dereference; a refused dial records the
`LocalAddr` nil dereference. -/
theorem claim_C7_nil_dereferences_witness :
    (SG.handle envRefused [5, 1, 0, 5, 2, 0, 1, 1, 2, 3, 4, 0, 80]).1.crashed ≠ none ∧
    (SG.handleCommandConnect envRefused
        { SG.init [] with addressType := ipv4, IP := [10, 0, 0, 9] }).2.1.crashed =
      some "handleCommandConnect: remote.LocalAddr on nil remote" :=
  ⟨claim_C7_nil_dereferences.1 envRefused [5, 1, 0, 5, 2, 0, 1, 1, 2, 3, 4, 0, 80]
      (fun _ _ hx => Option.noConfusion hx) (by decide),
    claim_C7_nil_dereferences.2 envRefused
      { SG.init [] with addressType := ipv4, IP := [10, 0, 0, 9] }
      "connect: connection refused" rfl rfl rfl rfl⟩

/-- Claim C1: in both variants, every session writes exactly one SOCKS5
reply frame to the client (success or failure), and the relay phase is
entered only when the command is connect and the recorded reply code is
succeeded.  (`LookupWF` packages Go's `net.LookupIP` contract that a nil
error comes with a non-empty result.) -/
theorem claim_C1_one_reply_and_relay_guard (env : Env) (input : List Nat)
    (hwf : LookupWF env) :
    (frames (SG.handle env input).2 = 1 ∧
      (Event.relayEntered ∈ (SG.handle env input).2 →
        (SG.handle env input).1.command = connect ∧
        (SG.handle env input).1.reply = succeeded)) ∧
    (frames (P1.handle env input).2 = 1 ∧
      (Event.relayEntered ∈ (P1.handle env input).2 →
        (P1.handle env input).1.command = connect ∧
        (P1.handle env input).1.reply = succeeded)) :=
  ⟨⟨(SG.handle_spec env input hwf).1, (SG.handle_spec env input hwf).2.1⟩,
    P1.handle_specP env input⟩

/-- Witness for claim C1: a successful connect session through `envDialOk`. -/
theorem claim_C1_one_reply_and_relay_guard_witness :
    (frames (SG.handle envDialOk [5, 1, 0, 5, 1, 0, 1, 1, 2, 3, 4, 0, 80]).2 = 1 ∧
      (Event.relayEntered ∈ (SG.handle envDialOk [5, 1, 0, 5, 1, 0, 1, 1, 2, 3, 4, 0, 80]).2 →
        (SG.handle envDialOk [5, 1, 0, 5, 1, 0, 1, 1, 2, 3, 4, 0, 80]).1.command = connect ∧
        (SG.handle envDialOk [5, 1, 0, 5, 1, 0, 1, 1, 2, 3, 4, 0, 80]).1.reply = succeeded)) ∧
    (frames (P1.handle envDialOk [5, 1, 0, 5, 1, 0, 1, 1, 2, 3, 4, 0, 80]).2 = 1 ∧
      (Event.relayEntered ∈ (P1.handle envDialOk [5, 1, 0, 5, 1, 0, 1, 1, 2, 3, 4, 0, 80]).2 →
        (P1.handle envDialOk [5, 1, 0, 5, 1, 0, 1, 1, 2, 3, 4, 0, 80]).1.command = connect ∧
        (P1.handle envDialOk [5, 1, 0, 5, 1, 0, 1, 1, 2, 3, 4, 0, 80]).1.reply = succeeded)) :=
  claim_C1_one_reply_and_relay_guard envDialOk [5, 1, 0, 5, 1, 0, 1, 1, 2, 3, 4, 0, 80]
    (fun _ _ hx => Option.noConfusion hx)

end Socks

namespace Socks.WGX

/-- Invariant of the `part_001` relay interleaving: the WaitGroup counter
counts the goroutines that have not yet called `wg.Done()`, `wg.Wait()` can
only have returned once the counter hit zero, and a goroutine past its
second statement has half-closed its destination. -/
def Inv (s : State) : Prop :=
  s.g1pc ≤ 3 ∧ s.g2pc ≤ 3 ∧
  s.wg = (if s.g1pc = 3 then 0 else 1) + (if s.g2pc = 3 then 0 else 1) ∧
  (s.retDone = true → s.wg = 0) ∧
  (2 ≤ s.g1pc → REvent.closeWrite 1 ∈ s.trace) ∧
  (2 ≤ s.g2pc → REvent.closeWrite 2 ∈ s.trace)

lemma start_inv : Inv start := by simp [Inv, start]

lemma mStep_inv (s : State) (h : Inv s) : Inv (mStep s) := by
  obtain ⟨h1, h2, h3, h4, h5, h6⟩ := h
  unfold mStep
  split_ifs with hr hw
  · exact ⟨h1, h2, h3, h4, h5, h6⟩
  · exact ⟨h1, h2, h3, fun _ => hw,
      fun hh => List.mem_append_left _ (h5 hh), fun hh => List.mem_append_left _ (h6 hh)⟩
  · exact ⟨h1, h2, h3, h4, h5, h6⟩

lemma g1Step_inv (e : Option String) (s : State) (h : Inv s) : Inv (g1Step e s) := by
  obtain ⟨h1, h2, h3, h4, h5, h6⟩ := h
  unfold g1Step
  split <;>
    by_cases hg2 : s.g2pc = 3 <;>
      simp_all [Inv, List.mem_append]

lemma g2Step_inv (e : Option String) (s : State) (h : Inv s) : Inv (g2Step e s) := by
  obtain ⟨h1, h2, h3, h4, h5, h6⟩ := h
  unfold g2Step
  split <;>
    by_cases hg1 : s.g1pc = 3 <;>
      simp_all [Inv, List.mem_append]

lemma step_inv (e1 e2 : Option String) (t : Nat) (s : State) (h : Inv s) :
    Inv (step e1 e2 t s) := by
  unfold step
  split_ifs
  · exact mStep_inv s h
  · exact g1Step_inv e1 s h
  · exact g2Step_inv e2 s h

lemma run_inv (e1 e2 : Option String) (sched : List Nat) : Inv (run e1 e2 sched) := by
  suffices hgen : ∀ (l : List Nat) (s : State), Inv s →
      Inv (l.foldl (fun s t => step e1 e2 t s) s) by
    exact hgen sched start start_inv
  intro l
  induction l with
  | nil => intro s hs; exact hs
  | cons t ts ih => intro s hs; exact ih _ (step_inv e1 e2 t s hs)

end Socks.WGX

namespace Socks.CHX

lemma step_trace (e1 e2 : Option String) (t : Nat) (s : State)
    (h : ∀ j, REvent.closeWrite j ∉ s.trace) :
    ∀ j, REvent.closeWrite j ∉ (step e1 e2 t s).trace := by
  intro j
  unfold step
  split_ifs
  · unfold mStep
    split
    · split_ifs <;> simp_all
    · simp_all
    · exact h j
  · unfold g1Step
    split <;> simp_all
  · unfold g2Step
    split <;> simp_all

/-- The `server.go` relay never half-closes either connection: its traces
contain no `closeWrite` event under any interleaving. -/
lemma run_no_closeWrite (e1 e2 : Option String) (sched : List Nat) :
    ∀ j, REvent.closeWrite j ∉ (run e1 e2 sched).trace := by
  suffices hgen : ∀ (l : List Nat) (s : State), (∀ j, REvent.closeWrite j ∉ s.trace) →
      ∀ j, REvent.closeWrite j ∉ (l.foldl (fun s t => step e1 e2 t s) s).trace by
    exact hgen sched start (by simp [start])
  intro l
  induction l with
  | nil => intro s hs; exact hs
  | cons t ts ih => intro s hs; exact ih _ (step_trace e1 e2 t s hs)

end Socks.CHX

namespace Socks

/-- Counterexample for claim C2: in the `server.go` variant, when the first
direction's `io.Copy` fails and is scheduled first, `exchange` returns
(with that error) while the second direction has not even finished its
copy, and no half-close was performed on either connection. -/
theorem claim_C2_counterexample :
    (CHX.run (some "read: connection reset by peer") none [1, 1, 0]).retErr =
      some (some "read: connection reset by peer") ∧
    (CHX.run (some "read: connection reset by peer") none [1, 1, 0]).g2pc = 0 ∧
    REvent.closeWrite 1 ∉
      (CHX.run (some "read: connection reset by peer") none [1, 1, 0]).trace ∧
    REvent.closeWrite 2 ∉
      (CHX.run (some "read: connection reset by peer") none [1, 1, 0]).trace := by
  decide

/-- Claim C2 (amended): in the `part_001` variant, under every interleaving
and for arbitrary `io.Copy` outcomes (including errors) the engine returns
only after both copy directions have fully finished, each having half-closed
its destination connection; the `server.go` variant's engine never
half-closes either connection (and, per the counterexample, returns early
when a direction reports an error). -/
theorem claim_C2_amended_relay_join (e1 e2 : Option String) (sched : List Nat) :
    ((WGX.run e1 e2 sched).retDone = true →
      (WGX.run e1 e2 sched).g1pc = 3 ∧ (WGX.run e1 e2 sched).g2pc = 3 ∧
      REvent.closeWrite 1 ∈ (WGX.run e1 e2 sched).trace ∧
      REvent.closeWrite 2 ∈ (WGX.run e1 e2 sched).trace) ∧
    (∀ j, REvent.closeWrite j ∉ (CHX.run e1 e2 sched).trace) := by
  refine ⟨?_, CHX.run_no_closeWrite e1 e2 sched⟩
  intro hret
  obtain ⟨h1, h2, h3, h4, h5, h6⟩ := WGX.run_inv e1 e2 sched
  have hwg := h4 hret
  rw [h3] at hwg
  by_cases hg1 : (WGX.run e1 e2 sched).g1pc = 3 <;>
    by_cases hg2 : (WGX.run e1 e2 sched).g2pc = 3 <;> simp_all

/-- Witness for the amended claim C2: a full interleaving in which direction
one errors; the engine still joins both directions, each half-closed. -/
theorem claim_C2_amended_relay_join_witness :
    ((WGX.run (some "boom") none [1, 1, 1, 2, 2, 2, 0]).g1pc = 3 ∧
      (WGX.run (some "boom") none [1, 1, 1, 2, 2, 2, 0]).g2pc = 3 ∧
      REvent.closeWrite 1 ∈ (WGX.run (some "boom") none [1, 1, 1, 2, 2, 2, 0]).trace ∧
      REvent.closeWrite 2 ∈ (WGX.run (some "boom") none [1, 1, 1, 2, 2, 2, 0]).trace) ∧
    REvent.closeWrite 1 ∉ (CHX.run (some "boom") none [1, 1, 1, 2, 2, 2, 0]).trace :=
  ⟨(claim_C2_amended_relay_join (some "boom") none [1, 1, 1, 2, 2, 2, 0]).1 (by decide),
    (claim_C2_amended_relay_join (some "boom") none [1, 1, 1, 2, 2, 2, 0]).2 1⟩

end Socks
